import Mathlib

/-!
# Accelerated bridge CNI: the VF lifecycle and bridge attachment manager

A shallow embedding of `pkg/manager/manager.go`.  The manager talks to the
kernel only through the `NetlinkManager` and `Sriovnet` interfaces, so the
embedding is parametric in a state type `σ` (the state of whatever implements
the interfaces) and every interface method is a state-passing function.

Conventions:
* a Go `error` is `Option String` (`none` is `nil`, `some msg` is an error whose
  `Error()` text is `msg`); a Go `(T, error)` is `Except String T` where the
  caller reads the value only when the error is `nil`, and a pair otherwise;
* a `netlink.Link` is the immutable snapshot of the attributes that the
  manager reads through `Attrs()`;
* Go `int` values are `Int`; `uint16(x)` is `x % 65536`;
* a `net.HardwareAddr` is a list of bytes (naturals below 256);
* Go strings are `String`; `net.ParseMAC` is modelled on characters, which
  agrees with the bytes of Go because every string it accepts is ASCII.

Two implementations of the ports are defined after the manager: a recording
test double whose answers are programmed (the statements about the sequence of
calls are proved against it, for every programme), and a fake kernel with a
device table (the round trip of `SetupVF` and `ReleaseVF` is proved against
it).
-/

set_option linter.unusedVariables false
set_option maxRecDepth 8000

namespace AcceleratedBridge

/-! ## Library types and functions used by the manager -/

/-- Go `net.HardwareAddr`: a byte slice. -/
abbrev net.HardwareAddr := List Nat

/-- Go `netlink.VfInfo`, the fields read by the manager. -/
structure VfInfo where
  ID : Int
  Mac : net.HardwareAddr
  deriving DecidableEq, Repr

/-- Go `netlink.Link`, seen through `Attrs()`. -/
structure Link where
  Index : Int
  Name : String
  HardwareAddr : net.HardwareAddr
  Vfs : List VfInfo
  deriving DecidableEq, Repr

/-- The table `hexDigit` of Go package `net`. -/
def hexDigit (n : Nat) : Char := "0123456789abcdef".data.getD n '0'

/-- Characters of `HardwareAddr.String()`: two lower-case hex digits per byte,
colon separated; empty for an empty address. -/
def hwChars : List Nat → List Char
  | [] => []
  | [b] => [hexDigit (b / 16), hexDigit (b % 16)]
  | b :: c :: bs => hexDigit (b / 16) :: hexDigit (b % 16) :: ':' :: hwChars (c :: bs)

/-- Go `func (a HardwareAddr) String() string`. -/
def net.HardwareAddr.String (a : net.HardwareAddr) : String := String.mk (hwChars a)

/-- The loop of Go `net.xtoi`: hexadecimal to integer, returning the number,
the count of characters consumed and a success flag. -/
def xtoiLoop : List Char → Nat → Nat → Nat × Nat × Bool
  | [], n, i => if i = 0 then (0, i, false) else (n, i, true)
  | c :: cs, n, i =>
    if '0'.toNat ≤ c.toNat ∧ c.toNat ≤ '9'.toNat then
      let n1 := n * 16 + (c.toNat - '0'.toNat)
      if n1 ≥ 0xFFFFFF then (0, i, false) else xtoiLoop cs n1 (i + 1)
    else if 'a'.toNat ≤ c.toNat ∧ c.toNat ≤ 'f'.toNat then
      let n1 := n * 16 + (c.toNat - 'a'.toNat + 10)
      if n1 ≥ 0xFFFFFF then (0, i, false) else xtoiLoop cs n1 (i + 1)
    else if 'A'.toNat ≤ c.toNat ∧ c.toNat ≤ 'F'.toNat then
      let n1 := n * 16 + (c.toNat - 'A'.toNat + 10)
      if n1 ≥ 0xFFFFFF then (0, i, false) else xtoiLoop cs n1 (i + 1)
    else if i = 0 then (0, i, false) else (n, i, true)

/-- Go `net.xtoi`. -/
def xtoi (s : List Char) : Nat × Nat × Bool := xtoiLoop s 0 0

/-- Go `net.xtoi2`: the next two hex digits of `s` as a byte; when `s` is longer
than two characters the third must be `e`.  `e = none` stands for the byte 0,
which is no character of a string handled here. -/
def xtoi2 (s : List Char) (e : Option Char) : Option Nat :=
  if s.length > 2 ∧ s.get? 2 ≠ e then none
  else
    match xtoi (s.take 2) with
    | (n, ei, ok) => if ok ∧ ei = 2 then some (n % 256) else none

/-- The loop of the colon or dash form of `net.ParseMAC`: `n` bytes, three
characters apart. -/
def parseLoop3 (sep : Char) : Nat → List Char → Option (List Nat)
  | 0, _ => some []
  | n + 1, s =>
    match xtoi2 s (some sep) with
    | none => none
    | some b =>
      match parseLoop3 sep n (s.drop 3) with
      | none => none
      | some bs => some (b :: bs)

/-- The loop of the dotted form of `net.ParseMAC`: `n` byte pairs, five
characters apart. -/
def parseLoop5 : Nat → List Char → Option (List Nat)
  | 0, _ => some []
  | n + 1, s =>
    match xtoi2 (s.take 2) none with
    | none => none
    | some b0 =>
      match xtoi2 (s.drop 2) (some '.') with
      | none => none
      | some b1 =>
        match parseLoop5 n (s.drop 5) with
        | none => none
        | some bs => some (b0 :: b1 :: bs)

/-- Go `net.ParseMAC` on the characters of the string.  Every accepted string
is ASCII, so characters and bytes coincide. -/
def parseMACChars (s : List Char) : Option net.HardwareAddr :=
  if s.length < 14 then none
  else if s.get? 2 = some ':' ∨ s.get? 2 = some '-' then
    if (s.length + 1) % 3 ≠ 0 then none
    else
      let n := (s.length + 1) / 3
      if n ≠ 6 ∧ n ≠ 8 ∧ n ≠ 20 then none
      else parseLoop3 (s.getD 2 ':') n s
  else if s.get? 4 = some '.' then
    if (s.length + 1) % 5 ≠ 0 then none
    else
      let n := 2 * (s.length + 1) / 5
      if n ≠ 6 ∧ n ≠ 8 ∧ n ≠ 20 then none
      else parseLoop5 (n / 2) s
  else none

/-- Go `net.ParseMAC`; `none` is the `invalid MAC address` error. -/
def net.ParseMAC (s : String) : Option net.HardwareAddr := parseMACChars s.data

/-- The text of the `*net.AddrError` returned by a failed `net.ParseMAC`: the
address is left out when it is the empty string. -/
def net.ParseMAC.errText (s : String) : String :=
  if s ≠ "" then "address " ++ s ++ ": invalid MAC address" else "invalid MAC address"

/-! ## Data model -/

/-- Modelled from the spec: `types.VfState` (package `pkg/types`), the snapshot
of host-side state captured before mutation: host interface name, the
administrative MAC at discovery time and the effective MAC before override. -/
structure VfState where
  HostIFName : String
  AdminMAC : String
  EffectiveMAC : String
  deriving DecidableEq, Repr

/-- Modelled from the spec: `types.NetConf` (package `pkg/types`), the
configuration and state record of one VF, with the fields the manager uses. -/
structure NetConf where
  Master : String
  VFID : Int
  MAC : String
  Vlan : Int
  Bridge : String
  Representor : String
  ContIFNames : String
  OrigVfState : VfState
  deriving DecidableEq, Repr

/-! ## The ports -/

/-- Go interface `NetlinkManager`: one state-passing function per method. -/
structure NetlinkManager (σ : Type) where
  LinkByName : String → σ → Except String Link × σ
  LinkSetVfVlan : Link → Int → Int → σ → Option String × σ
  LinkSetVfVlanQos : Link → Int → Int → Int → σ → Option String × σ
  LinkSetVfHardwareAddr : Link → Int → net.HardwareAddr → σ → Option String × σ
  LinkSetHardwareAddr : Link → net.HardwareAddr → σ → Option String × σ
  LinkSetUp : Link → σ → Option String × σ
  LinkSetDown : Link → σ → Option String × σ
  LinkSetNsFd : Link → Int → σ → Option String × σ
  LinkSetName : Link → String → σ → Option String × σ
  LinkSetVfRate : Link → Int → Int → Int → σ → Option String × σ
  LinkSetVfSpoofchk : Link → Int → Bool → σ → Option String × σ
  LinkSetVfTrust : Link → Int → Bool → σ → Option String × σ
  LinkSetVfState : Link → Int → Nat → σ → Option String × σ
  LinkSetMaster : Link → Link → σ → Option String × σ
  LinkSetNoMaster : Link → σ → Option String × σ
  BridgeVlanAdd : Link → Nat → Bool → Bool → Bool → Bool → σ → Option String × σ
  BridgeVlanDel : Link → Nat → Bool → Bool → Bool → Bool → σ → Option String × σ

/-- Go interface `Sriovnet`.  `GetVfRepresentor` returns both the string and the
error, because the caller stores the string before looking at the error. -/
structure Sriovnet (σ : Type) where
  GetVfRepresentor : String → Int → σ → (String × Option String) × σ

/-- Go interface `ns.NetNS` of the CNI plugins library, the two methods the
manager calls: `Fd()` (already converted to `int`) and `Do`, which runs a
function with the thread switched into the namespace. -/
structure NetNS (σ : Type) where
  Fd : Int
  Do : (σ → Option String × σ) → σ → Option String × σ

/-- Package-level library functions the manager calls: `ns.GetCurrentNS` and
the quoting done by the `%q` verb of `fmt` (Go `strconv.Quote`). -/
structure Lib (σ : Type) where
  GetCurrentNS : σ → Except String (NetNS σ) × σ
  Quote : String → String

/-- Go struct `manager`.  The `utils pciUtils` field is used by none of the
six operations and is left out. -/
structure manager (σ : Type) where
  nLink : NetlinkManager σ
  sriov : Sriovnet σ

/-! ## The manager

Each call of a port is bound to `r`: `r.1` is what the call returns and `r.2`
the state of the ports after it. -/

variable {σ : Type}

/-- The function literal passed to `netns.Do` in `SetupVF`: steps 5 and 6. -/
def SetupVF.inNs (m : manager σ) (lib : Lib σ) (linkObj : Link)
    (podifName linkName tempName : String) (s : σ) : Option String × σ :=
  -- 5. Set Pod IF name
  let r := m.nLink.LinkSetName linkObj podifName s
  match r.1 with
  | some _ =>
    (some ("error setting container interface name " ++ linkName ++ " for " ++ tempName), r.2)
  | none =>
    -- 6. Bring IF up in Pod netns
    let r := m.nLink.LinkSetUp linkObj r.2
    match r.1 with
    | some err => (some ("error bringing interface up in container ns: " ++ lib.Quote err), r.2)
    | none => (none, r.2)

/-- Steps 4 to 7 of `SetupVF`, after the MAC block: namespace move, the work
inside the namespace, and the record of the container interface name. -/
def SetupVF.tail (m : manager σ) (lib : Lib σ) (conf : NetConf) (linkObj : Link)
    (podifName linkName tempName macAddress : String) (netns : NetNS σ) (s : σ) :
    Except String String × NetConf × σ :=
  -- 4. Change netns
  let r := m.nLink.LinkSetNsFd linkObj netns.Fd s
  match r.1 with
  | some err =>
    (.error ("failed to move IF " ++ tempName ++ " to netns: " ++ lib.Quote err), conf, r.2)
  | none =>
    let r := netns.Do (SetupVF.inNs m lib linkObj podifName linkName tempName) r.2
    match r.1 with
    | some err =>
      (.error ("error setting up interface in container namespace: " ++ lib.Quote err),
        conf, r.2)
    | none => (.ok macAddress, { conf with ContIFNames := podifName }, r.2)

/-- Go `func (m *manager) SetupVF(conf, podifName, cid, netns) (string, error)`.
Returns the result, the `NetConf` as left behind (it is mutated in place also
on error paths) and the state of the ports. -/
def SetupVF (m : manager σ) (lib : Lib σ) (conf : NetConf) (podifName cid : String)
    (netns : NetNS σ) (s : σ) : Except String String × NetConf × σ :=
  let linkName := conf.OrigVfState.HostIFName
  let r := m.nLink.LinkByName linkName s
  match r.1 with
  | .error _ => (.error ("error getting VF netdevice with name " ++ linkName), conf, r.2)
  | .ok linkObj =>
    -- tempName used as intermediary name to avoid name conflicts
    let tempName := "temp_" ++ toString linkObj.Index
    -- 1. Set link down
    let r := m.nLink.LinkSetDown linkObj r.2
    match r.1 with
    | some err =>
      (.error ("failed to down vf device " ++ lib.Quote linkName ++ ": " ++ err), conf, r.2)
    | none =>
      -- 2. Set temp name
      let r := m.nLink.LinkSetName linkObj tempName r.2
      match r.1 with
      | some _ =>
        (.error ("error setting temp IF name " ++ tempName ++ " for " ++ linkName), conf, r.2)
      | none =>
        let macAddress := linkObj.HardwareAddr.String
        -- 3. Set MAC address
        if conf.MAC ≠ "" then
          let macAddress := conf.MAC
          match net.ParseMAC conf.MAC with
          | none =>
            (.error ("failed to parse MAC address " ++ conf.MAC ++ ": "
              ++ net.ParseMAC.errText conf.MAC), conf, r.2)
          | some hwaddr =>
            -- Save the original effective MAC address before overriding it
            let conf := { conf with OrigVfState :=
              { conf.OrigVfState with EffectiveMAC := linkObj.HardwareAddr.String } }
            let r := m.nLink.LinkSetHardwareAddr linkObj hwaddr r.2
            match r.1 with
            | some err =>
              (.error ("failed to set netlink MAC address to " ++ hwaddr.String ++ ": " ++ err),
                conf, r.2)
            | none =>
              SetupVF.tail m lib conf linkObj podifName linkName tempName macAddress netns r.2
        else
          SetupVF.tail m lib conf linkObj podifName linkName tempName macAddress netns r.2

/-- Go `len` of a string: its length in bytes. -/
def len (s : String) : Nat := s.utf8ByteSize

/-- The last step of `ReleaseVF`: move VF device to init netns. -/
def ReleaseVF.moveBack (m : manager σ) (conf : NetConf) (linkObj : Link) (initns : NetNS σ)
    (s : σ) : Option String × σ :=
  let r := m.nLink.LinkSetNsFd linkObj initns.Fd s
  match r.1 with
  | some err =>
    (some ("failed to move interface " ++ conf.OrigVfState.HostIFName
      ++ " to init netns: " ++ err), r.2)
  | none => (none, r.2)

/-- The function literal passed to `netns.Do` in `ReleaseVF`. -/
def ReleaseVF.inNs (m : manager σ) (lib : Lib σ) (conf : NetConf) (podifName : String)
    (initns : NetNS σ) (s : σ) : Option String × σ :=
  -- get VF device
  let r := m.nLink.LinkByName podifName s
  match r.1 with
  | .error err =>
    (some ("failed to get netlink device with name " ++ podifName ++ ": " ++ lib.Quote err), r.2)
  | .ok linkObj =>
    -- shutdown VF device
    let r := m.nLink.LinkSetDown linkObj r.2
    match r.1 with
    | some err => (some ("failed to set link " ++ podifName ++ " down: " ++ lib.Quote err), r.2)
    | none =>
      -- rename VF device
      let r := m.nLink.LinkSetName linkObj conf.OrigVfState.HostIFName r.2
      match r.1 with
      | some err =>
        (some ("failed to rename link " ++ podifName ++ " to host name "
          ++ conf.OrigVfState.HostIFName ++ ": " ++ lib.Quote err), r.2)
      | none =>
        -- reset effective MAC address
        if conf.MAC ≠ "" then
          match net.ParseMAC conf.OrigVfState.EffectiveMAC with
          | none =>
            (some ("failed to parse original effective MAC address "
              ++ conf.OrigVfState.EffectiveMAC ++ ": "
              ++ net.ParseMAC.errText conf.OrigVfState.EffectiveMAC), r.2)
          | some hwaddr =>
            let r := m.nLink.LinkSetHardwareAddr linkObj hwaddr r.2
            match r.1 with
            | some err =>
              (some ("failed to restore original effective netlink MAC address "
                ++ hwaddr.String ++ ": " ++ err), r.2)
            | none => ReleaseVF.moveBack m conf linkObj initns r.2
        else ReleaseVF.moveBack m conf linkObj initns r.2

/-- Go `func (m *manager) ReleaseVF(conf, podifName, cid, netns) error`. -/
def ReleaseVF (m : manager σ) (lib : Lib σ) (conf : NetConf) (podifName cid : String)
    (netns : NetNS σ) (s : σ) : Option String × σ :=
  let r := lib.GetCurrentNS s
  match r.1 with
  | .error err => (some ("failed to get init netns: " ++ err), r.2)
  | .ok initns =>
    if len conf.ContIFNames < 1 ∧ len conf.ContIFNames ≠ len conf.OrigVfState.HostIFName then
      (some ("number of interface names mismatch ContIFNames: "
        ++ toString (len conf.ContIFNames) ++ " HostIFNames: "
        ++ toString (len conf.OrigVfState.HostIFName)), r.2)
    else
      netns.Do (ReleaseVF.inNs m lib conf podifName initns) r.2

/-- Go `func getVfInfo(link netlink.Link, id int) *netlink.VfInfo`. -/
def getVfInfo (link : Link) (id : Int) : Option VfInfo :=
  link.Vfs.find? (fun vf => vf.ID == id)

/-- Go `func (m *manager) ApplyVFConfig(conf *types.NetConf) error`. -/
def ApplyVFConfig (m : manager σ) (lib : Lib σ) (conf : NetConf) (s : σ) : Option String × σ :=
  let r := m.nLink.LinkByName conf.Master s
  match r.1 with
  | .error err => (some ("failed to lookup master " ++ lib.Quote conf.Master ++ ": " ++ err), r.2)
  | .ok pfLink =>
    -- Save current the VF state before modifying it
    match getVfInfo pfLink conf.VFID with
    | none => (some ("failed to find vf " ++ toString conf.VFID), r.2)
    | some _ =>
      -- Set mac address
      if conf.MAC ≠ "" then
        match net.ParseMAC conf.MAC with
        | none =>
          (some ("failed to parse MAC address " ++ conf.MAC ++ ": "
            ++ net.ParseMAC.errText conf.MAC), r.2)
        | some hwaddr =>
          let r := m.nLink.LinkSetVfHardwareAddr pfLink conf.VFID hwaddr r.2
          match r.1 with
          | some err =>
            (some ("failed to set MAC address to " ++ hwaddr.String ++ ": " ++ err), r.2)
          | none => (none, r.2)
      else (none, r.2)

/-- Go `func (m *manager) ResetVFConfig(conf *types.NetConf) error`. -/
def ResetVFConfig (m : manager σ) (lib : Lib σ) (conf : NetConf) (s : σ) : Option String × σ :=
  let r := m.nLink.LinkByName conf.Master s
  match r.1 with
  | .error err => (some ("failed to lookup master " ++ lib.Quote conf.Master ++ ": " ++ err), r.2)
  | .ok pfLink =>
    -- Restore the original administrative MAC address
    if conf.MAC ≠ "" then
      match net.ParseMAC conf.OrigVfState.AdminMAC with
      | none =>
        (some ("failed to parse original administrative MAC address "
          ++ conf.OrigVfState.AdminMAC ++ ": "
          ++ net.ParseMAC.errText conf.OrigVfState.AdminMAC), r.2)
      | some hwaddr =>
        let r := m.nLink.LinkSetVfHardwareAddr pfLink conf.VFID hwaddr r.2
        match r.1 with
        | some err =>
          (some ("failed to restore original administrative MAC address "
            ++ hwaddr.String ++ ": " ++ err), r.2)
        | none => (none, r.2)
    else (none, r.2)

/-- Go `func (m *manager) addPFToBridge(bridge netlink.Link, conf) error`. -/
def addPFToBridge (m : manager σ) (bridge : Link) (conf : NetConf) (s : σ) :
    Option String × σ :=
  let r := m.nLink.LinkByName conf.Master s
  match r.1 with
  | .error err => (some ("failed to get pf link " ++ conf.Master ++ ": " ++ err), r.2)
  | .ok pf =>
    let r := m.nLink.LinkSetMaster pf bridge r.2
    match r.1 with
    | some err => (some ("failed to add PF " ++ conf.Master ++ " to bridge: " ++ err), r.2)
    | none =>
      let r := m.nLink.LinkSetUp pf r.2
      match r.1 with
      | some err => (some ("failed to set PF " ++ conf.Master ++ " up: " ++ err), r.2)
      | none => (none, r.2)

/-- The last statement of `addRepresentorToBridge`: set the representor up. -/
def addRepresentorToBridge.setUp (m : manager σ) (conf : NetConf) (rep : Link) (s : σ) :
    Option String × σ :=
  let r := m.nLink.LinkSetUp rep s
  match r.1 with
  | some err => (some ("failed to set representor " ++ conf.Representor ++ " up: " ++ err), r.2)
  | none => (none, r.2)

/-- The statements of `addRepresentorToBridge` that follow the `defer`: the
VLAN membership and the set-up of the representor. -/
def addRepresentorToBridge.body (m : manager σ) (conf : NetConf) (rep : Link) (s : σ) :
    Option String × σ :=
  if conf.Vlan ≠ 0 then
    let r := m.nLink.BridgeVlanAdd rep (conf.Vlan % 65536).toNat true true false true s
    match r.1 with
    | some err =>
      (some ("failed to set VLAN for representor " ++ conf.Representor ++ ": " ++ err), r.2)
    | none => addRepresentorToBridge.setUp m conf rep r.2
  else addRepresentorToBridge.setUp m conf rep s

/-- Go `func (m *manager) addRepresentorToBridge(bridge netlink.Link, conf) error`.
The deferred function runs when the statements after it leave an error in
`err`; it calls `LinkSetNoMaster` and drops that call's own result. -/
def addRepresentorToBridge (m : manager σ) (bridge : Link) (conf : NetConf) (s : σ) :
    Option String × NetConf × σ :=
  let r := m.sriov.GetVfRepresentor conf.Master conf.VFID s
  let conf := { conf with Representor := r.1.1 }
  match r.1.2 with
  | some err =>
    (some ("failed to get VF's " ++ toString conf.VFID ++ " representor on NIC "
      ++ conf.Master ++ ": " ++ err), conf, r.2)
  | none =>
    let r := m.nLink.LinkByName conf.Representor r.2
    match r.1 with
    | .error err =>
      (some ("failed to get representor link " ++ conf.Representor ++ ": " ++ err), conf, r.2)
    | .ok rep =>
      let r := m.nLink.LinkSetMaster rep bridge r.2
      match r.1 with
      | some err =>
        (some ("failed to add representor " ++ conf.Representor ++ " to bridge: " ++ err),
          conf, r.2)
      | none =>
        let r := addRepresentorToBridge.body m conf rep r.2
        match r.1 with
        | some err => (some err, conf, (m.nLink.LinkSetNoMaster rep r.2).2)
        | none => (none, conf, r.2)

/-- Go `func (m *manager) AddToBridge(conf *types.NetConf) error`. -/
def AddToBridge (m : manager σ) (conf : NetConf) (s : σ) : Option String × NetConf × σ :=
  let r := m.nLink.LinkByName conf.Bridge s
  match r.1 with
  | .error err => (some ("failed to get bridge link " ++ conf.Bridge ++ ": " ++ err), conf, r.2)
  | .ok bridge =>
    let r := addPFToBridge m bridge conf r.2
    match r.1 with
    | some err => (some err, conf, r.2)
    | none =>
      let r := addRepresentorToBridge m bridge conf r.2
      match r.1 with
      | some err => (some err, r.2.1, r.2.2)
      | none =>
        let conf := r.2.1
        let r := m.nLink.LinkSetUp bridge r.2.2
        match r.1 with
        | some err => (some ("failed to set bridge " ++ conf.Bridge ++ " up: " ++ err), conf, r.2)
        | none => (none, conf, r.2)

/-- Go `func (m *manager) DelFromBridge(conf *types.NetConf) error`. -/
def DelFromBridge (m : manager σ) (conf : NetConf) (s : σ) : Option String × σ :=
  let r := m.nLink.LinkByName conf.Representor s
  match r.1 with
  | .error err =>
    (some ("failed to get representor " ++ conf.Representor ++ " link: " ++ err), r.2)
  | .ok rep =>
    let r := m.nLink.LinkSetDown rep r.2
    match r.1 with
    | some err => (some ("failed to set representor " ++ conf.Representor ++ " down: " ++ err), r.2)
    | none => m.nLink.LinkSetNoMaster rep r.2

/-! ## A recording test double for the ports

The test double of the repository (`mocks/Netlink.go`) records every call with
its arguments and answers with programmed return values.  Here the record is
the list of calls made so far and the programme is a function of that record
and of the call, so the double can stand for any deterministic implementation
of the ports. -/

/-- One recorded call: the method and its arguments. -/
inductive Call where
  | LinkByName (name : String)
  | LinkSetVfVlan (link : Link) (vf vlan : Int)
  | LinkSetVfVlanQos (link : Link) (vf vlan qos : Int)
  | LinkSetVfHardwareAddr (link : Link) (vf : Int) (hwaddr : net.HardwareAddr)
  | LinkSetHardwareAddr (link : Link) (hwaddr : net.HardwareAddr)
  | LinkSetUp (link : Link)
  | LinkSetDown (link : Link)
  | LinkSetNsFd (link : Link) (fd : Int)
  | LinkSetName (link : Link) (name : String)
  | LinkSetVfRate (link : Link) (vf minRate maxRate : Int)
  | LinkSetVfSpoofchk (link : Link) (vf : Int) (check : Bool)
  | LinkSetVfTrust (link : Link) (vf : Int) (state : Bool)
  | LinkSetVfState (link : Link) (vf : Int) (state : Nat)
  | LinkSetMaster (link master : Link)
  | LinkSetNoMaster (link : Link)
  | BridgeVlanAdd (link : Link) (vid : Nat) (pvid untagged self master : Bool)
  | BridgeVlanDel (link : Link) (vid : Nat) (pvid untagged self master : Bool)
  | GetVfRepresentor (master : String) (vfid : Int)
  deriving DecidableEq, Repr

/-- The programmed answers of the test double, each a function of the calls
recorded so far. -/
structure Program where
  link : List Call → String → Except String Link
  rep : List Call → String → Int → String × Option String
  err : List Call → Call → Option String

/-- Record a call that returns only an error. -/
def Program.record (p : Program) (c : Call) (log : List Call) : Option String × List Call :=
  (p.err log c, log ++ [c])

/-- The recording `NetlinkManager`. -/
def mockNetlink (p : Program) : NetlinkManager (List Call) where
  LinkByName name log := (p.link log name, log ++ [.LinkByName name])
  LinkSetVfVlan l vf vlan := p.record (.LinkSetVfVlan l vf vlan)
  LinkSetVfVlanQos l vf vlan qos := p.record (.LinkSetVfVlanQos l vf vlan qos)
  LinkSetVfHardwareAddr l vf hw := p.record (.LinkSetVfHardwareAddr l vf hw)
  LinkSetHardwareAddr l hw := p.record (.LinkSetHardwareAddr l hw)
  LinkSetUp l := p.record (.LinkSetUp l)
  LinkSetDown l := p.record (.LinkSetDown l)
  LinkSetNsFd l fd := p.record (.LinkSetNsFd l fd)
  LinkSetName l name := p.record (.LinkSetName l name)
  LinkSetVfRate l vf lo hi := p.record (.LinkSetVfRate l vf lo hi)
  LinkSetVfSpoofchk l vf b := p.record (.LinkSetVfSpoofchk l vf b)
  LinkSetVfTrust l vf b := p.record (.LinkSetVfTrust l vf b)
  LinkSetVfState l vf st := p.record (.LinkSetVfState l vf st)
  LinkSetMaster l master := p.record (.LinkSetMaster l master)
  LinkSetNoMaster l := p.record (.LinkSetNoMaster l)
  BridgeVlanAdd l vid pvid untagged self master :=
    p.record (.BridgeVlanAdd l vid pvid untagged self master)
  BridgeVlanDel l vid pvid untagged self master :=
    p.record (.BridgeVlanDel l vid pvid untagged self master)

/-- The recording `Sriovnet`. -/
def mockSriov (p : Program) : Sriovnet (List Call) where
  GetVfRepresentor master vfid log :=
    (p.rep log master vfid, log ++ [.GetVfRepresentor master vfid])

/-- The manager wired to the test double. -/
def mockManager (p : Program) : manager (List Call) where
  nLink := mockNetlink p
  sriov := mockSriov p

/-- A namespace handle for the test double: `Do` either fails to enter the
namespace (`enterErr`) without running the function, or runs it; switching
namespaces has no effect on a test double. -/
def mockNS (fd : Int) (enterErr : Option String) : NetNS (List Call) where
  Fd := fd
  Do f log :=
    match enterErr with
    | some e => (some e, log)
    | none => f log

/-- The library functions for the test double: `GetCurrentNS` answers with a
programmed error or the descriptor of the initial namespace. -/
def mockLib (initns : Except String Int) (quote : String → String) : Lib (List Call) where
  GetCurrentNS log := (initns.map (fun fd => mockNS fd none), log)
  Quote := quote

/-- The `%q` verb (Go `strconv.Quote`) on printable ASCII text: the string
between double quotes, with a backslash before every double quote and every
backslash. -/
def quotePlain (s : String) : String :=
  "\"" ++ String.mk (s.data.flatMap (fun c => if c = '"' ∨ c = '\\' then ['\\', c] else [c]))
    ++ "\""

/-- Is the call a hardware-address set of either kind? -/
def Call.isHwAddrSet : Call → Bool
  | .LinkSetHardwareAddr _ _ => true
  | .LinkSetVfHardwareAddr _ _ _ => true
  | _ => false

/-- Is the call a rename? -/
def Call.isRename : Call → Bool
  | .LinkSetName _ _ => true
  | _ => false

/-- Is the call a namespace move? -/
def Call.isNsMove : Call → Bool
  | .LinkSetNsFd _ _ => true
  | _ => false

/-- Is the call a VLAN membership add? -/
def Call.isVlanAdd : Call → Bool
  | .BridgeVlanAdd _ _ _ _ _ _ => true
  | _ => false

/-- Is the call a detach from the bridge? -/
def Call.isNoMaster : Call → Bool
  | .LinkSetNoMaster _ => true
  | _ => false

/-! ## A fake kernel behind the Device Control Port

A small executable model of the kernel's device table, used for the round trip
of `SetupVF` and `ReleaseVF`.  Devices carry an interface index, a name, a
hardware address, the namespace that holds them and the administrative state.
A call names its device by the interface index of the link handle and only
reaches devices of the namespace the thread is in.  The port records every
call together with a flag telling whether it succeeded. -/

/-- A network device of the fake kernel. -/
structure Dev where
  Index : Int
  Name : String
  HardwareAddr : net.HardwareAddr
  Ns : Nat
  Up : Bool
  deriving DecidableEq, Repr

/-- The fake kernel: the device table, the namespace of the calling thread and
the record of calls, each with its success flag. -/
structure Kernel where
  devs : List Dev
  cur : Nat
  log : List (Call × Bool)
  deriving DecidableEq, Repr

/-- The device renamed. -/
def Dev.withName (d : Dev) (name : String) : Dev := { d with Name := name }

/-- The device with another hardware address. -/
def Dev.withAddr (d : Dev) (hw : net.HardwareAddr) : Dev := { d with HardwareAddr := hw }

/-- The device set administratively up or down. -/
def Dev.withUp (d : Dev) (up : Bool) : Dev := { d with Up := up }

/-- The device moved to a namespace; the move closes the device. -/
def Dev.withNs (d : Dev) (ns : Nat) : Dev := { d with Ns := ns, Up := false }

/-- The device with the given interface index. -/
def Kernel.dev? (k : Kernel) (idx : Int) : Option Dev :=
  k.devs.find? (fun d => d.Index == idx)

/-- The device of the current namespace with the given name. -/
def Kernel.byName (k : Kernel) (name : String) : Option Dev :=
  k.devs.find? (fun d => d.Ns == k.cur && d.Name == name)

/-- Update the device with the given interface index. -/
def Kernel.modify (k : Kernel) (idx : Int) (f : Dev → Dev) : Kernel :=
  { k with devs := k.devs.map (fun d => if d.Index = idx then f d else d) }

/-- Does another device of namespace `ns` already carry the name? -/
def Kernel.nameTaken (k : Kernel) (ns : Nat) (name : String) (idx : Int) : Bool :=
  k.devs.any (fun d => d.Ns == ns && d.Name == name && d.Index != idx)

/-- Append a call and its success flag to the record. -/
def Kernel.logged (k : Kernel) (c : Call) (ok : Bool) : Kernel :=
  { k with log := k.log ++ [(c, ok)] }

/-- The common shape of the setters: find the device by interface index in the
current namespace, refuse when `busy` gives an error, otherwise update it. -/
def Kernel.setLink (k : Kernel) (c : Call) (idx : Int) (busy : Dev → Option String)
    (f : Dev → Dev) : Option String × Kernel :=
  match k.dev? idx with
  | none => (some "no such device", k.logged c false)
  | some d =>
    if d.Ns ≠ k.cur then (some "no such device", k.logged c false)
    else
      match busy d with
      | some e => (some e, k.logged c false)
      | none => (none, (k.modify idx f).logged c true)

/-- A call the fake kernel does not implement. -/
def Kernel.unsupported (k : Kernel) (c : Call) : Option String × Kernel :=
  (some "operation not supported", k.logged c false)

/-- The link handle of a device. -/
def Dev.link (d : Dev) : Link :=
  { Index := d.Index, Name := d.Name, HardwareAddr := d.HardwareAddr, Vfs := [] }

/-- The refusals of a rename: the device must be down, the name non-empty and
free in the device's namespace. -/
def Kernel.renameBusy (k : Kernel) (name : String) (d : Dev) : Option String :=
  if d.Up then some "device or resource busy"
  else if name = "" then some "invalid argument"
  else if k.nameTaken d.Ns name d.Index then some "file exists"
  else none

/-- The refusals of a namespace move: the descriptor must be valid and the
device's name free in the target namespace. -/
def Kernel.moveBusy (k : Kernel) (fd : Int) (d : Dev) : Option String :=
  if fd < 0 then some "bad file descriptor"
  else if k.nameTaken fd.toNat d.Name d.Index then some "file exists"
  else none

/-- The Device Control Port of the fake kernel. -/
def fakeNetlink : NetlinkManager Kernel where
  LinkByName name k :=
    match k.byName name with
    | none => (.error "Link not found", k.logged (.LinkByName name) false)
    | some d => (.ok d.link, k.logged (.LinkByName name) true)
  LinkSetVfVlan l vf vlan k := k.unsupported (.LinkSetVfVlan l vf vlan)
  LinkSetVfVlanQos l vf vlan qos k := k.unsupported (.LinkSetVfVlanQos l vf vlan qos)
  LinkSetVfHardwareAddr l vf hw k := k.unsupported (.LinkSetVfHardwareAddr l vf hw)
  LinkSetHardwareAddr l hw k :=
    k.setLink (.LinkSetHardwareAddr l hw) l.Index (fun _ => none) (fun d => d.withAddr hw)
  LinkSetUp l k :=
    k.setLink (.LinkSetUp l) l.Index (fun _ => none) (fun d => d.withUp true)
  LinkSetDown l k :=
    k.setLink (.LinkSetDown l) l.Index (fun _ => none) (fun d => d.withUp false)
  LinkSetNsFd l fd k :=
    k.setLink (.LinkSetNsFd l fd) l.Index (k.moveBusy fd) (fun d => d.withNs fd.toNat)
  LinkSetName l name k :=
    k.setLink (.LinkSetName l name) l.Index (k.renameBusy name) (fun d => d.withName name)
  LinkSetVfRate l vf lo hi k := k.unsupported (.LinkSetVfRate l vf lo hi)
  LinkSetVfSpoofchk l vf b k := k.unsupported (.LinkSetVfSpoofchk l vf b)
  LinkSetVfTrust l vf b k := k.unsupported (.LinkSetVfTrust l vf b)
  LinkSetVfState l vf st k := k.unsupported (.LinkSetVfState l vf st)
  LinkSetMaster l master k := k.unsupported (.LinkSetMaster l master)
  LinkSetNoMaster l k := k.unsupported (.LinkSetNoMaster l)
  BridgeVlanAdd l vid pvid untagged self master k :=
    k.unsupported (.BridgeVlanAdd l vid pvid untagged self master)
  BridgeVlanDel l vid pvid untagged self master k :=
    k.unsupported (.BridgeVlanDel l vid pvid untagged self master)

/-- The manager wired to the fake kernel.  The VF Metadata Port is not part of
the fake and answers with an error. -/
def fakeManager : manager Kernel where
  nLink := fakeNetlink
  sriov :=
    { GetVfRepresentor := fun master vfid k =>
        (("", some "operation not supported"), k.logged (.GetVfRepresentor master vfid) false) }

/-- Switch the calling thread to namespace `ns`. -/
def Kernel.setCur (k : Kernel) (ns : Nat) : Kernel := { k with cur := ns }

/-- The handle of namespace `id` of the fake kernel: the descriptor is the
namespace number, and `Do` runs the function with the thread switched into the
namespace and switches back afterwards. -/
def kernelNS (id : Nat) : NetNS Kernel where
  Fd := (id : Int)
  Do f k :=
    let r := f (k.setCur id)
    (r.1, r.2.setCur k.cur)

/-- The library functions over the fake kernel: `GetCurrentNS` gives the
handle of the thread's namespace. -/
def fakeLib (quote : String → String) : Lib Kernel where
  GetCurrentNS k := (.ok (kernelNS k.cur), k)
  Quote := quote

/-- Every recorded call of the fake kernel succeeded. -/
def Kernel.allOk (k : Kernel) : Prop := ∀ e ∈ k.log, e.2 = true

instance (k : Kernel) : Decidable k.allOk := by
  unfold Kernel.allOk; infer_instance

/-! ## Call sequences and example data used in the statements -/

/-- The temporary name `SetupVF` derives from the interface index. -/
def tempNameOf (linkObj : Link) : String := "temp_" ++ toString linkObj.Index

/-- Every call of the list succeeds when the test double is asked for it after
the record `h` and the calls before it. -/
def Program.passes (p : Program) : List Call → List Call → Prop
  | _, [] => True
  | h, c :: cs => p.err h c = none ∧ p.passes (h ++ [c]) cs

/-- No call satisfying `q` occurs in the list before the first call satisfying
`r` (and that call itself does not satisfy `q`). -/
def noneBefore (r q : Call → Bool) : List Call → Bool
  | [] => true
  | c :: cs => !q c && (r c || noneBefore r q cs)

/-- A programme in which every call succeeds: every lookup finds a device with
interface index 7, the 6-byte address `02:00:00:00:00:01` and VF 3 in its
table, and the representor resolves to `pf0vf3`. -/
def okProgram : Program where
  link _ n := .ok
    { Index := 7, Name := n, HardwareAddr := [2, 0, 0, 0, 0, 1],
      Vfs := [{ ID := 3, Mac := [0, 0, 0, 0, 0, 0] }] }
  rep _ _ _ := ("pf0vf3", none)
  err _ _ := none

/-- The programme `okProgram` except that the calls selected by `bad` fail
with the message `msg`. -/
def failingProgram (bad : Call → Bool) (msg : String) : Program where
  link h n := if bad (.LinkByName n) then .error msg else okProgram.link h n
  rep h m v := okProgram.rep h m v
  err _ c := if bad c then some msg else none

/-- The scenario of the specification: `Master="pf0"`, `VFID=3`,
`MAC="00:11:22:33:44:55"`, `Bridge="br-sriov"`, no VLAN, host name `eth0`. -/
def exConf : NetConf where
  Master := "pf0"
  VFID := 3
  MAC := "00:11:22:33:44:55"
  Vlan := 0
  Bridge := "br-sriov"
  Representor := ""
  ContIFNames := ""
  OrigVfState := { HostIFName := "eth0", AdminMAC := "", EffectiveMAC := "" }

/-- The library functions used in the examples. -/
def exLib : Lib (List Call) := mockLib (.ok 3) quotePlain

/-- The link the programme `okProgram` returns for a name. -/
def exLink (n : String) : Link :=
  { Index := 7, Name := n, HardwareAddr := [2, 0, 0, 0, 0, 1],
    Vfs := [{ ID := 3, Mac := [0, 0, 0, 0, 0, 0] }] }

/-- A record with neither a container interface name nor a host interface
name, and no requested MAC. -/
def emptyNamesConf : NetConf :=
  { exConf with MAC := "", OrigVfState := { HostIFName := "", AdminMAC := "", EffectiveMAC := "" } }

/-- The calls of `AddToBridge` before the bridge attach of the representor:
the lookup of the bridge, sub-operation (a) on the PF, the resolution of the
representor name and the lookup of the representor. -/
def attachRecord (conf : NetConf) (bridge pf : Link) (rname : String) : List Call :=
  [.LinkByName conf.Bridge, .LinkByName conf.Master, .LinkSetMaster pf bridge, .LinkSetUp pf,
    .GetVfRepresentor conf.Master conf.VFID, .LinkByName rname]

/-- The test double lets `AddToBridge` reach the bridge attach of the
representor: the bridge is found as `bridge`, the PF is found as `pf`, attached
and set up, the representor resolves to the name `rname` and is found as
`rep`.  Each answer is the one given after the calls made before. -/
def Program.reachesRepAttach (p : Program) (conf : NetConf) (bridge pf : Link)
    (rname : String) (rep : Link) : Prop :=
  p.link [] conf.Bridge = .ok bridge ∧
  p.link ((attachRecord conf bridge pf rname).take 1) conf.Master = .ok pf ∧
  p.err ((attachRecord conf bridge pf rname).take 2) (.LinkSetMaster pf bridge) = none ∧
  p.err ((attachRecord conf bridge pf rname).take 3) (.LinkSetUp pf) = none ∧
  p.rep ((attachRecord conf bridge pf rname).take 4) conf.Master conf.VFID = (rname, none) ∧
  p.link ((attachRecord conf bridge pf rname).take 5) rname = .ok rep

/-- The VLAN membership call of `addRepresentorToBridge`. -/
def vlanAddCall (conf : NetConf) (rep : Link) : Call :=
  .BridgeVlanAdd rep (conf.Vlan % 65536).toNat true true false true

/-- The calls of `addRepresentorToBridge` that follow the bridge attach of the
representor: the VLAN membership when `conf.Vlan` is non-zero, then the set-up
of the representor. -/
def repLaterCalls (conf : NetConf) (rep : Link) : List Call :=
  (if conf.Vlan ≠ 0 then [vlanAddCall conf rep] else []) ++ [.LinkSetUp rep]

/-- The scenario of the specification with VLAN 100. -/
def exConfVlan : NetConf := { exConf with Vlan := 100 }

/-- The hardware-address call of step 3 of `SetupVF`: present when `conf.MAC`
is non-empty and parses. -/
def macCalls (conf : NetConf) (linkObj : Link) : List Call :=
  if conf.MAC ≠ "" then
    match net.ParseMAC conf.MAC with
    | some hwaddr => [.LinkSetHardwareAddr linkObj hwaddr]
    | none => []
  else []

/-- The calls of `SetupVF` on the link `linkObj` that come before the
namespace move: set-down, rename to the temporary name, hardware address. -/
def setupSetters (conf : NetConf) (linkObj : Link) : List Call :=
  [.LinkSetDown linkObj, .LinkSetName linkObj (tempNameOf linkObj)] ++ macCalls conf linkObj

/-- Is the call a lookup by name? -/
def Call.isLookup : Call → Bool
  | .LinkByName _ => true
  | _ => false

/-- Is the call the rename to the given name? -/
def Call.isRenameTo (name : String) : Call → Bool
  | .LinkSetName _ n => n == name
  | _ => false

/-- Is the call a set-up? -/
def Call.isSetUp : Call → Bool
  | .LinkSetUp _ => true
  | _ => false

/-- Is the call a set-down? -/
def Call.isSetDown : Call → Bool
  | .LinkSetDown _ => true
  | _ => false

/-- A VF device in the host namespace 0: `eth0`, interface index 7, address
`02:00:00:00:00:01`, administratively up. -/
def exDev : Dev :=
  { Index := 7, Name := "eth0", HardwareAddr := [2, 0, 0, 0, 0, 1], Ns := 0, Up := true }

/-- The device `exDev` with an empty hardware address. -/
def exDevNoAddr : Dev := { exDev with HardwareAddr := [] }

/-- A fake kernel with the one device `exDev`, the thread in the host
namespace 0. -/
def exKernel : Kernel where
  devs := [exDev]
  cur := 0
  log := []

/-- A fake kernel with the one device `exDevNoAddr`. -/
def exKernelNoAddr : Kernel where
  devs := [exDevNoAddr]
  cur := 0
  log := []

/-- The scenario of the specification with a requested MAC that does not
parse. -/
def badMacConf : NetConf := { exConf with MAC := "00:11:22:33:44" }

/-- `SetupVF` and then `ReleaseVF` on the fake kernel, with the container
interface name `net1` and the container namespace 1: the result of `SetupVF`,
the result of `ReleaseVF` and the kernel left behind. -/
def roundTrip (conf : NetConf) (k : Kernel) : Except String String × Option String × Kernel :=
  let r1 := SetupVF fakeManager (fakeLib quotePlain) conf "net1" "cid" (kernelNS 1) k
  let r2 := ReleaseVF fakeManager (fakeLib quotePlain) r1.2.1 "net1" "cid" (kernelNS 1) r1.2.2
  (r1.1, r2.1, r2.2)

/-- The calls of a run of `AddToBridge` in which every call is made: the
calls up to the lookup of the representor, the bridge attach of the
representor, the later calls of the representor sub-operation and, last, the
set-up of the bridge. -/
def fullRecord (conf : NetConf) (bridge pf : Link) (rname : String) (rep : Link) : List Call :=
  attachRecord conf bridge pf rname ++ [.LinkSetMaster rep bridge] ++ repLaterCalls conf rep
    ++ [.LinkSetUp bridge]

/-- The calls of the two sub-operations of `AddToBridge`: the full record
without the set-up of the bridge. -/
def subRecord (conf : NetConf) (bridge pf : Link) (rname : String) (rep : Link) : List Call :=
  attachRecord conf bridge pf rname ++ [.LinkSetMaster rep bridge] ++ repLaterCalls conf rep

/-- The test double lets both sub-operations of `AddToBridge` succeed: every
call up to the lookup of the representor succeeds, and so do the bridge attach
of the representor and the later calls of the representor sub-operation. -/
def Program.bothSucceed (p : Program) (conf : NetConf) (bridge pf : Link) (rname : String)
    (rep : Link) : Prop :=
  p.reachesRepAttach conf bridge pf rname rep ∧
  p.err (attachRecord conf bridge pf rname) (.LinkSetMaster rep bridge) = none ∧
  p.passes (attachRecord conf bridge pf rname ++ [.LinkSetMaster rep bridge])
    (repLaterCalls conf rep)

/-! # Theorems -/

/-- The reading of `noneBefore` on positions: every call satisfying `q` has a
call satisfying `r` strictly before it. -/
theorem noneBefore_spec (r q : Call → Bool) (L : List Call) (h : noneBefore r q L = true)
    (j : Nat) (c : Call) (hj : L[j]? = some c) (hq : q c = true) :
    ∃ i, i < j ∧ ∃ c', L[i]? = some c' ∧ r c' = true := by
  induction L generalizing j with
  | nil => simp at hj
  | cons a as ih =>
    simp only [noneBefore, Bool.and_eq_true, Bool.not_eq_true', Bool.or_eq_true] at h
    cases j with
    | zero =>
      simp only [List.getElem?_cons_zero, Option.some.injEq] at hj
      subst hj
      rw [h.1] at hq
      exact absurd hq (by simp)
    | succ j =>
      simp only [List.getElem?_cons_succ] at hj
      rcases h.2 with hr | hn
      · exact ⟨0, Nat.succ_pos j, a, by simp, hr⟩
      · obtain ⟨i, hi, c', hc', hr⟩ := ih hn j hj
        exact ⟨i + 1, Nat.succ_lt_succ hi, c', by simpa using hc', hr⟩

/-- C2: a successful `SetupVF` returns the requested `conf.MAC` when it is
non-empty and otherwise the text of the hardware address of the device found
under the host name, and it leaves `conf.ContIFNames` equal to the requested
container interface name.  This holds for every implementation of the ports. -/
theorem C2_SetupVF_effective_MAC {σ : Type} (m : manager σ) (lib : Lib σ) (conf : NetConf)
    (podifName cid : String) (netns : NetNS σ) (s : σ) (mac : String)
    (h : (SetupVF m lib conf podifName cid netns s).1 = .ok mac) :
    (∃ linkObj, (m.nLink.LinkByName conf.OrigVfState.HostIFName s).1 = .ok linkObj ∧
      mac = if conf.MAC ≠ "" then conf.MAC else linkObj.HardwareAddr.String) ∧
    (SetupVF m lib conf podifName cid netns s).2.1.ContIFNames = podifName := by
  unfold SetupVF SetupVF.tail at *
  simp only at *
  repeat' split at h
  all_goals simp_all

/-- The scenario of the specification as an instance of C2: the call succeeds
and returns `00:11:22:33:44:55`. -/
theorem C2_SetupVF_effective_MAC_witness :
    (SetupVF (mockManager okProgram) exLib exConf "net1" "cid" (mockNS 9 none) []).1
        = .ok "00:11:22:33:44:55" ∧
    ((∃ linkObj, ((mockManager okProgram).nLink.LinkByName exConf.OrigVfState.HostIFName []).1
          = .ok linkObj ∧
        "00:11:22:33:44:55"
          = if exConf.MAC ≠ "" then exConf.MAC else linkObj.HardwareAddr.String) ∧
      (SetupVF (mockManager okProgram) exLib exConf "net1" "cid"
        (mockNS 9 none) []).2.1.ContIFNames = "net1") :=
  ⟨by rfl, C2_SetupVF_effective_MAC _ _ _ _ _ _ _ _ (by rfl)⟩

/-- C9: in every run of `SetupVF` with an empty `conf.MAC`, successful or
aborted, the record holds no hardware-address-set call and
`conf.OrigVfState.EffectiveMAC` is left as it was. -/
theorem C9_SetupVF_no_MAC_frame (p : Program) (lib : Lib (List Call)) (conf : NetConf)
    (podifName cid : String) (fd : Int) (enterErr : Option String)
    (h : conf.MAC = "") :
    (∀ c ∈ (SetupVF (mockManager p) lib conf podifName cid (mockNS fd enterErr) []).2.2,
      c.isHwAddrSet = false) ∧
    (SetupVF (mockManager p) lib conf podifName cid
      (mockNS fd enterErr) []).2.1.OrigVfState.EffectiveMAC
        = conf.OrigVfState.EffectiveMAC := by
  unfold SetupVF SetupVF.tail mockNS SetupVF.inNs
  simp only [mockManager, mockNetlink, Program.record, h]
  constructor
  · repeat' split
    all_goals simp_all [Call.isHwAddrSet]
  · repeat' split
    all_goals simp_all

/-- An instance of C9: the scenario of the specification without a requested
MAC, against the programme in which every call succeeds. -/
theorem C9_SetupVF_no_MAC_frame_witness :
    ({ exConf with MAC := "" } : NetConf).MAC = "" ∧
    ((∀ c ∈ (SetupVF (mockManager okProgram) exLib { exConf with MAC := "" } "net1" "cid"
        (mockNS 9 none) []).2.2, c.isHwAddrSet = false) ∧
      (SetupVF (mockManager okProgram) exLib { exConf with MAC := "" } "net1" "cid"
        (mockNS 9 none) []).2.1.OrigVfState.EffectiveMAC
          = ({ exConf with MAC := "" } : NetConf).OrigVfState.EffectiveMAC) :=
  ⟨rfl, C9_SetupVF_no_MAC_frame _ _ _ _ _ _ _ rfl⟩

/-- The record of a `SetupVF` run against the test double, when the lookup
found `linkObj`: no rename and no namespace move comes before the set-down of
`linkObj`, and no namespace move before the rename to the temporary name. -/
theorem SetupVF_mock_noneBefore (p : Program) (lib : Lib (List Call)) (conf : NetConf)
    (podifName cid : String) (fd : Int) (enterErr : Option String) (linkObj : Link)
    (hl : p.link [] conf.OrigVfState.HostIFName = .ok linkObj) :
    noneBefore (fun c => decide (c = .LinkSetDown linkObj))
        (fun c => c.isRename || c.isNsMove)
        (SetupVF (mockManager p) lib conf podifName cid (mockNS fd enterErr) []).2.2 = true ∧
    noneBefore (fun c => decide (c = .LinkSetName linkObj (tempNameOf linkObj)))
        Call.isNsMove
        (SetupVF (mockManager p) lib conf podifName cid (mockNS fd enterErr) []).2.2 = true := by
  unfold SetupVF SetupVF.tail mockNS SetupVF.inNs
  simp only [mockManager, mockNetlink, Program.record, hl]
  constructor
  · repeat' split
    all_goals simp_all [noneBefore, Call.isRename, Call.isNsMove]
  · repeat' split
    all_goals simp_all [noneBefore, Call.isRename, Call.isNsMove, tempNameOf]

/-- C3: in the record of every `SetupVF` run against the test double,
successful or aborted, every rename and every namespace move has the set-down
of the VF device strictly before it, and every namespace move has the rename to
`temp_<ifindex>` strictly before it. -/
theorem C3_SetupVF_call_order (p : Program) (lib : Lib (List Call)) (conf : NetConf)
    (podifName cid : String) (fd : Int) (enterErr : Option String) (j : Nat) (c : Call)
    (hj : (SetupVF (mockManager p) lib conf podifName cid (mockNS fd enterErr) []).2.2[j]?
      = some c) :
    (c.isRename = true ∨ c.isNsMove = true →
      ∃ linkObj, p.link [] conf.OrigVfState.HostIFName = .ok linkObj ∧
        ∃ i, i < j ∧
          (SetupVF (mockManager p) lib conf podifName cid (mockNS fd enterErr) []).2.2[i]?
            = some (.LinkSetDown linkObj)) ∧
    (c.isNsMove = true →
      ∃ linkObj, p.link [] conf.OrigVfState.HostIFName = .ok linkObj ∧
        ∃ i, i < j ∧
          (SetupVF (mockManager p) lib conf podifName cid (mockNS fd enterErr) []).2.2[i]?
            = some (.LinkSetName linkObj ("temp_" ++ toString linkObj.Index))) := by
  cases hl : p.link [] conf.OrigVfState.HostIFName with
  | error e =>
    have hlog : (SetupVF (mockManager p) lib conf podifName cid (mockNS fd enterErr) []).2.2
        = [.LinkByName conf.OrigVfState.HostIFName] := by
      unfold SetupVF
      simp [mockManager, mockNetlink, hl]
    rw [hlog] at hj
    cases j with
    | zero =>
      simp only [List.getElem?_cons_zero, Option.some.injEq] at hj
      subst hj
      simp [Call.isRename, Call.isNsMove]
    | succ j => simp at hj
  | ok linkObj =>
    obtain ⟨h1, h2⟩ := SetupVF_mock_noneBefore p lib conf podifName cid fd enterErr linkObj hl
    constructor
    · intro hc
      obtain ⟨i, hi, c', hc', hr⟩ := noneBefore_spec _ _ _ h1 j c hj (by
        rcases hc with hc | hc <;> simp [hc])
      exact ⟨linkObj, rfl, i, hi, by rw [hc', of_decide_eq_true hr]⟩
    · intro hc
      obtain ⟨i, hi, c', hc', hr⟩ := noneBefore_spec _ _ _ h2 j c hj hc
      exact ⟨linkObj, rfl, i, hi, by rw [hc', of_decide_eq_true hr]; rfl⟩

/-- An instance of C3: in the scenario of the specification the namespace move
is the call at position 4; the set-down and the rename to `temp_7` precede
it. -/
theorem C3_SetupVF_call_order_witness :
    (SetupVF (mockManager okProgram) exLib exConf "net1" "cid" (mockNS 9 none) []).2.2[4]?
        = some (.LinkSetNsFd (exLink "eth0") 9) ∧
    ((Call.isRename (.LinkSetNsFd (exLink "eth0") 9) = true
        ∨ Call.isNsMove (.LinkSetNsFd (exLink "eth0") 9) = true →
      ∃ linkObj, okProgram.link [] exConf.OrigVfState.HostIFName = .ok linkObj ∧
        ∃ i, i < 4 ∧
          (SetupVF (mockManager okProgram) exLib exConf "net1" "cid" (mockNS 9 none) []).2.2[i]?
            = some (.LinkSetDown linkObj)) ∧
    (Call.isNsMove (.LinkSetNsFd (exLink "eth0") 9) = true →
      ∃ linkObj, okProgram.link [] exConf.OrigVfState.HostIFName = .ok linkObj ∧
        ∃ i, i < 4 ∧
          (SetupVF (mockManager okProgram) exLib exConf "net1" "cid" (mockNS 9 none) []).2.2[i]?
            = some (.LinkSetName linkObj ("temp_" ++ toString linkObj.Index)))) :=
  ⟨by rfl, C3_SetupVF_call_order okProgram exLib exConf "net1" "cid" 9 none 4 _ (by rfl)⟩

/-- The byte length of a string is zero only for the empty string. -/
theorem len_eq_zero_iff (s : String) : len s = 0 ↔ s = "" := by
  obtain ⟨cs⟩ := s
  cases cs with
  | nil => simp [len, String.utf8ByteSize, String.utf8ByteSize.go]
  | cons c cs =>
    have hc := Char.utf8Size_pos c
    have hne : (String.mk (c :: cs)) ≠ "" := by
      intro h
      have := congrArg String.data h
      simp at this
    simp only [len, String.utf8ByteSize, String.utf8ByteSize.go, hne, iff_false]
    omega

/-- C6 (as amended): when the recorded container interface name is empty and
the original host interface name is not, `ReleaseVF` returns an error and the
test double records no call at all. -/
theorem C6_ReleaseVF_precondition (p : Program) (initns : Except String Int)
    (quote : String → String) (conf : NetConf) (podifName cid : String) (fd : Int)
    (enterErr : Option String)
    (h1 : conf.ContIFNames = "") (h2 : conf.OrigVfState.HostIFName ≠ "") :
    (ReleaseVF (mockManager p) (mockLib initns quote) conf podifName cid
      (mockNS fd enterErr) []).1.isSome = true ∧
    (ReleaseVF (mockManager p) (mockLib initns quote) conf podifName cid
      (mockNS fd enterErr) []).2 = [] := by
  have hc : len conf.ContIFNames = 0 := (len_eq_zero_iff _).2 h1
  have hh : len conf.OrigVfState.HostIFName ≠ 0 := fun h => h2 ((len_eq_zero_iff _).1 h)
  unfold ReleaseVF
  cases initns with
  | error e => simp [mockLib, Except.map]
  | ok initFd =>
    have hcond : len conf.ContIFNames < 1
        ∧ len conf.ContIFNames ≠ len conf.OrigVfState.HostIFName := by
      rw [hc]; exact ⟨Nat.zero_lt_one, fun h => hh h.symm⟩
    simp [mockLib, Except.map, hcond]

/-- An instance of C6 as amended: the scenario of the specification before
any `SetupVF`, with no container interface name on record. -/
theorem C6_ReleaseVF_precondition_witness :
    exConf.ContIFNames = "" ∧ exConf.OrigVfState.HostIFName ≠ "" ∧
    (ReleaseVF (mockManager okProgram) (mockLib (.ok 3) quotePlain) exConf "net1" "cid"
      (mockNS 9 none) []).1.isSome = true ∧
    (ReleaseVF (mockManager okProgram) (mockLib (.ok 3) quotePlain) exConf "net1" "cid"
      (mockNS 9 none) []).2 = [] :=
  ⟨rfl, by decide,
    C6_ReleaseVF_precondition okProgram (.ok 3) quotePlain exConf "net1" "cid" 9 none rfl
      (by decide)⟩

/-- C6 as stated fails: with an empty container interface name and an empty
host interface name the length check passes, and `ReleaseVF` goes on to look
the device up, set it down, rename it and move it, and returns no error. -/
theorem C6_ReleaseVF_precondition_counterexample :
    emptyNamesConf.ContIFNames = "" ∧
    ReleaseVF (mockManager okProgram) (mockLib (.ok 3) quotePlain) emptyNamesConf "net1" "cid"
        (mockNS 9 none) []
      = (none,
          [.LinkByName "net1", .LinkSetDown (exLink "net1"), .LinkSetName (exLink "net1") "",
            .LinkSetNsFd (exLink "net1") 3]) := by
  constructor <;> rfl

/-- The scan of `getVfInfo` finds nothing exactly when no entry of the VF table
carries the identifier. -/
theorem getVfInfo_eq_none_iff (link : Link) (id : Int) :
    getVfInfo link id = none ↔ ∀ vf ∈ link.Vfs, vf.ID ≠ id := by
  simp [getVfInfo, List.find?_eq_none]

/-- C7: against the test double, when the lookup of the PF gives `pfLink`:
if `conf.VFID` is the identifier of no entry of the VF table, `ApplyVFConfig`
returns an error and records no hardware-address-set call of either kind,
whatever `conf.MAC` is; if it is the identifier of an entry and `conf.MAC` is
non-empty and parses to `hwaddr`, the record is the lookup followed by exactly
one `LinkSetVfHardwareAddr` for that VFID with the parsed address. -/
theorem C7_ApplyVFConfig_VFID (p : Program) (lib : Lib (List Call)) (conf : NetConf)
    (pfLink : Link) (hpf : p.link [] conf.Master = .ok pfLink) :
    ((∀ vf ∈ pfLink.Vfs, vf.ID ≠ conf.VFID) →
      (ApplyVFConfig (mockManager p) lib conf []).1.isSome = true ∧
      ∀ c ∈ (ApplyVFConfig (mockManager p) lib conf []).2, c.isHwAddrSet = false) ∧
    (∀ hwaddr, (∃ vf ∈ pfLink.Vfs, vf.ID = conf.VFID) → conf.MAC ≠ "" →
      net.ParseMAC conf.MAC = some hwaddr →
      (ApplyVFConfig (mockManager p) lib conf []).2
        = [.LinkByName conf.Master, .LinkSetVfHardwareAddr pfLink conf.VFID hwaddr]) := by
  constructor
  · intro habs
    have hnone := (getVfInfo_eq_none_iff pfLink conf.VFID).2 habs
    unfold ApplyVFConfig
    simp [mockManager, mockNetlink, hpf, hnone, Call.isHwAddrSet]
  · intro hwaddr hex hmac hparse
    have hsome : ∃ v, getVfInfo pfLink conf.VFID = some v := by
      cases hg : getVfInfo pfLink conf.VFID with
      | none =>
        obtain ⟨vf, hvf, hid⟩ := hex
        exact absurd hid ((getVfInfo_eq_none_iff pfLink conf.VFID).1 hg vf hvf)
      | some v => exact ⟨v, rfl⟩
    obtain ⟨v, hv⟩ := hsome
    unfold ApplyVFConfig
    simp only [mockManager, mockNetlink, Program.record, hpf, hv, hmac, hparse]
    repeat' split
    all_goals simp_all

/-- Two instances of C7 in the scenario of the specification: VF 5 is not in
the table of the PF, VF 3 is. -/
theorem C7_ApplyVFConfig_VFID_witness :
    ((ApplyVFConfig (mockManager okProgram) exLib { exConf with VFID := 5 } []).1.isSome = true ∧
      ∀ c ∈ (ApplyVFConfig (mockManager okProgram) exLib { exConf with VFID := 5 } []).2,
        c.isHwAddrSet = false) ∧
    (ApplyVFConfig (mockManager okProgram) exLib exConf []).2
      = [.LinkByName "pf0", .LinkSetVfHardwareAddr (exLink "pf0") 3 [0, 17, 34, 51, 68, 85]] :=
  ⟨(C7_ApplyVFConfig_VFID okProgram exLib { exConf with VFID := 5 } (exLink "pf0") rfl).1
      (by decide),
    (C7_ApplyVFConfig_VFID okProgram exLib exConf (exLink "pf0") rfl).2 [0, 17, 34, 51, 68, 85]
      (by decide) (by decide) (by decide)⟩

/-- C8: against the test double, when the PF attach sub-operation succeeds and
the bridge attach of the representor fails, `AddToBridge` returns an error and
the failed attach is the last call of the record; the only set-up call in the
record is the one of the PF, so the bridge is not set up. -/
theorem C8_AddToBridge_rep_attach_fails (p : Program) (conf : NetConf) (bridge pf : Link)
    (rname : String) (rep : Link) (e : String)
    (h : p.reachesRepAttach conf bridge pf rname rep)
    (hfail : p.err (attachRecord conf bridge pf rname) (.LinkSetMaster rep bridge) = some e) :
    (AddToBridge (mockManager p) conf []).1
      = some ("failed to add representor " ++ rname ++ " to bridge: " ++ e) ∧
    (AddToBridge (mockManager p) conf []).2.2
      = attachRecord conf bridge pf rname ++ [.LinkSetMaster rep bridge] ∧
    (pf ≠ bridge → Call.LinkSetUp bridge ∉ (AddToBridge (mockManager p) conf []).2.2) := by
  obtain ⟨h1, h2, h3, h4, h5, h6⟩ := h
  simp only [attachRecord, List.take_succ_cons, List.take_zero] at h2 h3 h4 h5 h6 hfail
  have hrun : AddToBridge (mockManager p) conf []
      = (some ("failed to add representor " ++ rname ++ " to bridge: " ++ e),
          { conf with Representor := rname },
          attachRecord conf bridge pf rname ++ [.LinkSetMaster rep bridge]) := by
    unfold AddToBridge addPFToBridge addRepresentorToBridge
    simp [mockManager, mockNetlink, mockSriov, Program.record, attachRecord,
      h1, h2, h3, h4, h5, h6, hfail]
  rw [hrun]
  refine ⟨rfl, rfl, ?_⟩
  intro hne
  simp only [attachRecord, List.cons_append, List.nil_append, List.mem_cons, List.mem_singleton,
    List.not_mem_nil, reduceCtorEq, Call.LinkSetUp.injEq, false_or, or_false, not_or]
  exact fun hc => hne hc.symm

/-- An instance of C8: the scenario of the specification against a programme
in which only the bridge attach of the representor fails. -/
theorem C8_AddToBridge_rep_attach_fails_witness :
    (AddToBridge (mockManager (failingProgram
        (fun c => decide (c = .LinkSetMaster (exLink "pf0vf3") (exLink "br-sriov"))) "EBUSY"))
        exConf []).1
      = some ("failed to add representor " ++ "pf0vf3" ++ " to bridge: " ++ "EBUSY") ∧
    (AddToBridge (mockManager (failingProgram
        (fun c => decide (c = .LinkSetMaster (exLink "pf0vf3") (exLink "br-sriov"))) "EBUSY"))
        exConf []).2.2
      = attachRecord exConf (exLink "br-sriov") (exLink "pf0") "pf0vf3"
          ++ [.LinkSetMaster (exLink "pf0vf3") (exLink "br-sriov")] ∧
    (exLink "pf0" ≠ exLink "br-sriov" →
      Call.LinkSetUp (exLink "br-sriov") ∉ (AddToBridge (mockManager (failingProgram
        (fun c => decide (c = .LinkSetMaster (exLink "pf0vf3") (exLink "br-sriov"))) "EBUSY"))
        exConf []).2.2) :=
  C8_AddToBridge_rep_attach_fails _ exConf (exLink "br-sriov") (exLink "pf0") "pf0vf3"
    (exLink "pf0vf3") "EBUSY" ⟨rfl, rfl, rfl, rfl, rfl, rfl⟩ rfl

/-- C4: against the test double, when the bridge attach of the representor
succeeds and a later call of the representor sub-operation fails (the VLAN
membership or the set-up of the representor), `AddToBridge` returns an error,
the last call of the record is the detach of the representor, and that is the
only detach call of the record, so none is made for the PF. -/
theorem C4_AddToBridge_rollback (p : Program) (conf : NetConf) (bridge pf : Link)
    (rname : String) (rep : Link)
    (h : p.reachesRepAttach conf bridge pf rname rep)
    (hatt : p.err (attachRecord conf bridge pf rname) (.LinkSetMaster rep bridge) = none)
    (hfail : ¬ p.passes (attachRecord conf bridge pf rname ++ [.LinkSetMaster rep bridge])
      (repLaterCalls conf rep)) :
    (AddToBridge (mockManager p) conf []).1.isSome = true ∧
    (AddToBridge (mockManager p) conf []).2.2.getLast? = some (.LinkSetNoMaster rep) ∧
    (AddToBridge (mockManager p) conf []).2.2.filter Call.isNoMaster
      = [.LinkSetNoMaster rep] ∧
    (pf ≠ rep → Call.LinkSetNoMaster pf ∉ (AddToBridge (mockManager p) conf []).2.2) := by
  obtain ⟨h1, h2, h3, h4, h5, h6⟩ := h
  simp only [attachRecord, List.take_succ_cons, List.take_zero] at h2 h3 h4 h5 h6 hatt
  have key : (AddToBridge (mockManager p) conf []).1.isSome = true ∧
      (AddToBridge (mockManager p) conf []).2.2.getLast? = some (.LinkSetNoMaster rep) ∧
      (AddToBridge (mockManager p) conf []).2.2.filter Call.isNoMaster
        = [.LinkSetNoMaster rep] := by
    unfold AddToBridge addPFToBridge addRepresentorToBridge addRepresentorToBridge.body
      addRepresentorToBridge.setUp
    simp only [mockManager, mockNetlink, mockSriov, Program.record, List.nil_append,
      List.cons_append, h1, h2, h3, h4, h5, h6, hatt]
    by_cases hv : conf.Vlan = 0
    · simp only [repLaterCalls, hv, attachRecord, Program.passes, List.cons_append,
        List.nil_append, ne_eq, not_true_eq_false, ite_false, and_true] at hfail
      cases he : p.err [.LinkByName conf.Bridge, .LinkByName conf.Master,
          .LinkSetMaster pf bridge, .LinkSetUp pf, .GetVfRepresentor conf.Master conf.VFID,
          .LinkByName rname, .LinkSetMaster rep bridge] (.LinkSetUp rep) with
      | none => exact absurd he hfail
      | some e => simp [hv, he, Call.isNoMaster]
    · simp only [repLaterCalls, hv, attachRecord, Program.passes, List.cons_append,
        List.nil_append, ne_eq, not_false_eq_true, ite_true, and_true, vlanAddCall] at hfail
      cases he : p.err [.LinkByName conf.Bridge, .LinkByName conf.Master,
          .LinkSetMaster pf bridge, .LinkSetUp pf, .GetVfRepresentor conf.Master conf.VFID,
          .LinkByName rname, .LinkSetMaster rep bridge]
          (.BridgeVlanAdd rep (conf.Vlan % 65536).toNat true true false true) with
      | some e => simp [hv, he, Call.isNoMaster]
      | none =>
        cases he2 : p.err [.LinkByName conf.Bridge, .LinkByName conf.Master,
            .LinkSetMaster pf bridge, .LinkSetUp pf, .GetVfRepresentor conf.Master conf.VFID,
            .LinkByName rname, .LinkSetMaster rep bridge,
            .BridgeVlanAdd rep (conf.Vlan % 65536).toNat true true false true]
            (.LinkSetUp rep) with
        | none => exact absurd ⟨he, he2⟩ hfail
        | some e => simp [hv, he, he2, Call.isNoMaster]
  refine ⟨key.1, key.2.1, key.2.2, ?_⟩
  intro hne hmem
  have hf : Call.LinkSetNoMaster pf
      ∈ (AddToBridge (mockManager p) conf []).2.2.filter Call.isNoMaster :=
    List.mem_filter.2 ⟨hmem, rfl⟩
  rw [key.2.2] at hf
  simp only [List.mem_singleton, Call.LinkSetNoMaster.injEq] at hf
  exact hne hf

/-- An instance of C4: the scenario of the specification with VLAN 100 against
a programme in which only the VLAN membership call fails. -/
theorem C4_AddToBridge_rollback_witness :
    (AddToBridge (mockManager (failingProgram Call.isVlanAdd "EOPNOTSUPP"))
      exConfVlan []).1.isSome = true ∧
    (AddToBridge (mockManager (failingProgram Call.isVlanAdd "EOPNOTSUPP"))
      exConfVlan []).2.2.getLast? = some (.LinkSetNoMaster (exLink "pf0vf3")) ∧
    (AddToBridge (mockManager (failingProgram Call.isVlanAdd "EOPNOTSUPP"))
      exConfVlan []).2.2.filter Call.isNoMaster = [.LinkSetNoMaster (exLink "pf0vf3")] ∧
    (exLink "pf0" ≠ exLink "pf0vf3" →
      Call.LinkSetNoMaster (exLink "pf0") ∉
        (AddToBridge (mockManager (failingProgram Call.isVlanAdd "EOPNOTSUPP"))
          exConfVlan []).2.2) :=
  C4_AddToBridge_rollback (failingProgram Call.isVlanAdd "EOPNOTSUPP") exConfVlan
    (exLink "br-sriov") (exLink "pf0") "pf0vf3" (exLink "pf0vf3")
    ⟨rfl, rfl, rfl, rfl, rfl, rfl⟩ rfl (fun hp => absurd hp.1 (by decide))

/-- C5: against the test double, when every step of `AddToBridge` up to and
including the bridge attach of the representor succeeds: with a non-zero
`conf.Vlan` the record holds exactly one VLAN membership call, on the
representor link, with PVID and untagged set, self unset and master set; with
`conf.Vlan` zero it holds none; in both cases every VLAN membership call of the
record is on the representor link, so none is on the PF or on the bridge. -/
theorem C5_AddToBridge_vlan (p : Program) (conf : NetConf) (bridge pf : Link)
    (rname : String) (rep : Link)
    (h : p.reachesRepAttach conf bridge pf rname rep)
    (hatt : p.err (attachRecord conf bridge pf rname) (.LinkSetMaster rep bridge) = none) :
    (conf.Vlan ≠ 0 →
      (AddToBridge (mockManager p) conf []).2.2.filter Call.isVlanAdd
        = [.BridgeVlanAdd rep (conf.Vlan % 65536).toNat true true false true]) ∧
    (conf.Vlan = 0 → (AddToBridge (mockManager p) conf []).2.2.filter Call.isVlanAdd = []) ∧
    (∀ link vid pvid untagged self master,
      Call.BridgeVlanAdd link vid pvid untagged self master
        ∈ (AddToBridge (mockManager p) conf []).2.2 → link = rep) := by
  obtain ⟨h1, h2, h3, h4, h5, h6⟩ := h
  simp only [attachRecord, List.take_succ_cons, List.take_zero] at h2 h3 h4 h5 h6 hatt
  have key : (AddToBridge (mockManager p) conf []).2.2.filter Call.isVlanAdd
      = if conf.Vlan ≠ 0 then
          [.BridgeVlanAdd rep (conf.Vlan % 65536).toNat true true false true]
        else [] := by
    unfold AddToBridge addPFToBridge addRepresentorToBridge addRepresentorToBridge.body
      addRepresentorToBridge.setUp
    simp only [mockManager, mockNetlink, mockSriov, Program.record, List.nil_append,
      List.cons_append, h1, h2, h3, h4, h5, h6, hatt]
    by_cases hv : conf.Vlan = 0
    · simp only [hv, ne_eq, not_true_eq_false, ite_false]
      repeat' split
      all_goals simp_all [Call.isVlanAdd]
    · simp only [hv, ne_eq, not_false_eq_true, ite_true]
      repeat' split
      all_goals simp_all [Call.isVlanAdd]
  refine ⟨fun hv => by rw [key, if_pos hv], fun hv => by rw [key]; simp [hv], ?_⟩
  intro link vid pvid untagged self master hmem
  have hf : Call.BridgeVlanAdd link vid pvid untagged self master
      ∈ (AddToBridge (mockManager p) conf []).2.2.filter Call.isVlanAdd :=
    List.mem_filter.2 ⟨hmem, rfl⟩
  rw [key] at hf
  split at hf
  · simp only [List.mem_singleton, Call.BridgeVlanAdd.injEq] at hf
    exact hf.1
  · simp at hf

/-- Two instances of C5 against the programme in which every call succeeds:
the scenario of the specification with VLAN 100, and without VLAN. -/
theorem C5_AddToBridge_vlan_witness :
    (AddToBridge (mockManager okProgram) exConfVlan []).2.2.filter Call.isVlanAdd
      = [.BridgeVlanAdd (exLink "pf0vf3") 100 true true false true] ∧
    (AddToBridge (mockManager okProgram) exConf []).2.2.filter Call.isVlanAdd = [] :=
  ⟨(C5_AddToBridge_vlan okProgram exConfVlan (exLink "br-sriov") (exLink "pf0") "pf0vf3"
      (exLink "pf0vf3") ⟨rfl, rfl, rfl, rfl, rfl, rfl⟩ rfl).1 (by decide),
    (C5_AddToBridge_vlan okProgram exConf (exLink "br-sriov") (exLink "pf0") "pf0vf3"
      (exLink "pf0vf3") ⟨rfl, rfl, rfl, rfl, rfl, rfl⟩ rfl).2.1 (by decide)⟩

/-- C10 (as amended): against the test double, with the namespace entered
successfully, the failure of any device-control call of `SetupVF` makes
`SetupVF` return an error, and the failing call is the last call of the record.
The error text is: for the lookup and for the rename to the temporary name, a
text with the host interface name (and the temporary name) but without the
underlying message; for the set-down, the quoted host interface name and the
underlying message; for the hardware-address set, the requested address and the
underlying message; for the namespace move, the temporary name and the quoted
underlying message; for the set-up inside the namespace, the quoted underlying
message, quoted once more by the wrapper, and no device name; for the rename
inside the namespace, some text quoted by the wrapper. -/
theorem C10_SetupVF_error_propagation (p : Program) (lib : Lib (List Call)) (conf : NetConf)
    (podifName cid : String) (fd : Int) :
    (∀ e, p.link [] conf.OrigVfState.HostIFName = .error e →
      (SetupVF (mockManager p) lib conf podifName cid (mockNS fd none) []).1
        = .error ("error getting VF netdevice with name " ++ conf.OrigVfState.HostIFName) ∧
      (SetupVF (mockManager p) lib conf podifName cid (mockNS fd none) []).2.2
        = [.LinkByName conf.OrigVfState.HostIFName]) ∧
    (∀ linkObj e, p.link [] conf.OrigVfState.HostIFName = .ok linkObj →
      p.err [.LinkByName conf.OrigVfState.HostIFName] (.LinkSetDown linkObj) = some e →
      (SetupVF (mockManager p) lib conf podifName cid (mockNS fd none) []).1
        = .error ("failed to down vf device " ++ lib.Quote conf.OrigVfState.HostIFName
            ++ ": " ++ e) ∧
      (SetupVF (mockManager p) lib conf podifName cid (mockNS fd none) []).2.2
        = [.LinkByName conf.OrigVfState.HostIFName, .LinkSetDown linkObj]) ∧
    (∀ linkObj e, p.link [] conf.OrigVfState.HostIFName = .ok linkObj →
      p.passes [.LinkByName conf.OrigVfState.HostIFName] [.LinkSetDown linkObj] →
      p.err [.LinkByName conf.OrigVfState.HostIFName, .LinkSetDown linkObj]
        (.LinkSetName linkObj (tempNameOf linkObj)) = some e →
      (SetupVF (mockManager p) lib conf podifName cid (mockNS fd none) []).1
        = .error ("error setting temp IF name " ++ tempNameOf linkObj ++ " for "
            ++ conf.OrigVfState.HostIFName) ∧
      (SetupVF (mockManager p) lib conf podifName cid (mockNS fd none) []).2.2
        = [.LinkByName conf.OrigVfState.HostIFName, .LinkSetDown linkObj,
            .LinkSetName linkObj (tempNameOf linkObj)]) ∧
    (∀ linkObj hwaddr e, p.link [] conf.OrigVfState.HostIFName = .ok linkObj →
      p.passes [.LinkByName conf.OrigVfState.HostIFName]
        [.LinkSetDown linkObj, .LinkSetName linkObj (tempNameOf linkObj)] →
      conf.MAC ≠ "" → net.ParseMAC conf.MAC = some hwaddr →
      p.err [.LinkByName conf.OrigVfState.HostIFName, .LinkSetDown linkObj,
        .LinkSetName linkObj (tempNameOf linkObj)] (.LinkSetHardwareAddr linkObj hwaddr)
        = some e →
      (SetupVF (mockManager p) lib conf podifName cid (mockNS fd none) []).1
        = .error ("failed to set netlink MAC address to " ++ hwaddr.String ++ ": " ++ e) ∧
      (SetupVF (mockManager p) lib conf podifName cid (mockNS fd none) []).2.2
        = [.LinkByName conf.OrigVfState.HostIFName, .LinkSetDown linkObj,
            .LinkSetName linkObj (tempNameOf linkObj),
            .LinkSetHardwareAddr linkObj hwaddr]) ∧
    (∀ linkObj e, p.link [] conf.OrigVfState.HostIFName = .ok linkObj →
      (conf.MAC = "" ∨ (net.ParseMAC conf.MAC).isSome = true) →
      p.passes [.LinkByName conf.OrigVfState.HostIFName] (setupSetters conf linkObj) →
      p.err (.LinkByName conf.OrigVfState.HostIFName :: setupSetters conf linkObj)
        (.LinkSetNsFd linkObj fd) = some e →
      (SetupVF (mockManager p) lib conf podifName cid (mockNS fd none) []).1
        = .error ("failed to move IF " ++ tempNameOf linkObj ++ " to netns: "
            ++ lib.Quote e) ∧
      (SetupVF (mockManager p) lib conf podifName cid (mockNS fd none) []).2.2
        = .LinkByName conf.OrigVfState.HostIFName :: setupSetters conf linkObj
            ++ [.LinkSetNsFd linkObj fd]) ∧
    (∀ linkObj e, p.link [] conf.OrigVfState.HostIFName = .ok linkObj →
      (conf.MAC = "" ∨ (net.ParseMAC conf.MAC).isSome = true) →
      p.passes [.LinkByName conf.OrigVfState.HostIFName]
        (setupSetters conf linkObj ++ [.LinkSetNsFd linkObj fd]) →
      p.err (.LinkByName conf.OrigVfState.HostIFName :: setupSetters conf linkObj
        ++ [.LinkSetNsFd linkObj fd]) (.LinkSetName linkObj podifName) = some e →
      (∃ msg, (SetupVF (mockManager p) lib conf podifName cid (mockNS fd none) []).1
        = .error ("error setting up interface in container namespace: " ++ lib.Quote msg)) ∧
      (SetupVF (mockManager p) lib conf podifName cid (mockNS fd none) []).2.2
        = .LinkByName conf.OrigVfState.HostIFName :: setupSetters conf linkObj
            ++ [.LinkSetNsFd linkObj fd, .LinkSetName linkObj podifName]) ∧
    (∀ linkObj e, p.link [] conf.OrigVfState.HostIFName = .ok linkObj →
      (conf.MAC = "" ∨ (net.ParseMAC conf.MAC).isSome = true) →
      p.passes [.LinkByName conf.OrigVfState.HostIFName]
        (setupSetters conf linkObj
          ++ [.LinkSetNsFd linkObj fd, .LinkSetName linkObj podifName]) →
      p.err (.LinkByName conf.OrigVfState.HostIFName :: setupSetters conf linkObj
        ++ [.LinkSetNsFd linkObj fd, .LinkSetName linkObj podifName])
        (.LinkSetUp linkObj) = some e →
      (SetupVF (mockManager p) lib conf podifName cid (mockNS fd none) []).1
        = .error ("error setting up interface in container namespace: "
            ++ lib.Quote ("error bringing interface up in container ns: " ++ lib.Quote e)) ∧
      (SetupVF (mockManager p) lib conf podifName cid (mockNS fd none) []).2.2
        = .LinkByName conf.OrigVfState.HostIFName :: setupSetters conf linkObj
            ++ [.LinkSetNsFd linkObj fd, .LinkSetName linkObj podifName,
              .LinkSetUp linkObj]) := by
  refine ⟨?_, ?_, ?_, ?_, ?_, ?_, ?_⟩
  · intro e hl
    unfold SetupVF
    simp [mockManager, mockNetlink, hl]
  · intro linkObj e hl h1
    unfold SetupVF
    simp [mockManager, mockNetlink, Program.record, hl, h1]
  · intro linkObj e hl hp h2
    simp only [Program.passes, List.cons_append, List.nil_append, and_true, tempNameOf]
      at hp h2
    unfold SetupVF
    simp [mockManager, mockNetlink, Program.record, hl, hp, h2, tempNameOf]
  · intro linkObj hwaddr e hl hp hmac hparse h3
    simp only [Program.passes, List.cons_append, List.nil_append, and_true, tempNameOf]
      at hp h3
    unfold SetupVF
    simp [mockManager, mockNetlink, Program.record, hl, hp.1, hp.2, hmac, hparse, h3,
      tempNameOf]
  · intro linkObj e hl hmac hp h4
    by_cases hm : conf.MAC = ""
    · simp only [setupSetters, macCalls, hm, Program.passes, List.cons_append, List.nil_append,
        List.append_nil, and_true, tempNameOf, ne_eq, not_true_eq_false, ite_false] at hp h4
      unfold SetupVF SetupVF.tail
      simp [mockManager, mockNetlink, Program.record, mockNS, setupSetters, macCalls, hl, hp.1,
        hp.2, hm, h4, tempNameOf]
    · obtain ⟨hwaddr, hparse⟩ := Option.isSome_iff_exists.1 (hmac.resolve_left hm)
      simp only [setupSetters, macCalls, hm, hparse, Program.passes, List.cons_append,
        List.nil_append, List.append_nil, and_true, tempNameOf, ne_eq, not_false_eq_true,
        ite_true] at hp h4
      unfold SetupVF SetupVF.tail
      simp [mockManager, mockNetlink, Program.record, mockNS, setupSetters, macCalls, hl, hp.1,
        hp.2.1, hp.2.2, hm, hparse, h4, tempNameOf]
  · intro linkObj e hl hmac hp h5
    by_cases hm : conf.MAC = ""
    · simp only [setupSetters, macCalls, hm, Program.passes, List.cons_append, List.nil_append,
        List.append_nil, and_true, tempNameOf, ne_eq, not_true_eq_false, ite_false] at hp h5
      unfold SetupVF SetupVF.tail SetupVF.inNs
      simp [mockManager, mockNetlink, Program.record, mockNS, setupSetters, macCalls, hl, hp.1,
        hp.2.1, hp.2.2, hm, h5, tempNameOf]
      exact ⟨_, rfl⟩
    · obtain ⟨hwaddr, hparse⟩ := Option.isSome_iff_exists.1 (hmac.resolve_left hm)
      simp only [setupSetters, macCalls, hm, hparse, Program.passes, List.cons_append,
        List.nil_append, List.append_nil, and_true, tempNameOf, ne_eq, not_false_eq_true,
        ite_true] at hp h5
      unfold SetupVF SetupVF.tail SetupVF.inNs
      simp [mockManager, mockNetlink, Program.record, mockNS, setupSetters, macCalls, hl, hp.1,
        hp.2.1, hp.2.2.1, hp.2.2.2, hm, hparse, h5, tempNameOf]
      exact ⟨_, rfl⟩
  · intro linkObj e hl hmac hp h6
    by_cases hm : conf.MAC = ""
    · simp only [setupSetters, macCalls, hm, Program.passes, List.cons_append, List.nil_append,
        List.append_nil, and_true, tempNameOf, ne_eq, not_true_eq_false, ite_false] at hp h6
      unfold SetupVF SetupVF.tail SetupVF.inNs
      simp [mockManager, mockNetlink, Program.record, mockNS, setupSetters, macCalls, hl, hp.1,
        hp.2.1, hp.2.2.1, hp.2.2.2, hm, h6, tempNameOf]
    · obtain ⟨hwaddr, hparse⟩ := Option.isSome_iff_exists.1 (hmac.resolve_left hm)
      simp only [setupSetters, macCalls, hm, hparse, Program.passes, List.cons_append,
        List.nil_append, List.append_nil, and_true, tempNameOf, ne_eq, not_false_eq_true,
        ite_true] at hp h6
      unfold SetupVF SetupVF.tail SetupVF.inNs
      simp [mockManager, mockNetlink, Program.record, mockNS, setupSetters, macCalls, hl, hp.1,
        hp.2.1, hp.2.2.1, hp.2.2.2.1, hp.2.2.2.2, hm, hparse, h6, tempNameOf]

/-- Two instances of C10 as amended in the scenario of the specification: the
set-down fails with `EBUSY`, and the set-up inside the namespace fails with
`ENODEV`. -/
theorem C10_SetupVF_error_propagation_witness :
    ((SetupVF (mockManager (failingProgram Call.isSetDown "EBUSY")) exLib exConf "net1" "cid"
        (mockNS 9 none) []).1
        = .error ("failed to down vf device " ++ exLib.Quote exConf.OrigVfState.HostIFName
            ++ ": " ++ "EBUSY") ∧
      (SetupVF (mockManager (failingProgram Call.isSetDown "EBUSY")) exLib exConf "net1" "cid"
        (mockNS 9 none) []).2.2
        = [.LinkByName exConf.OrigVfState.HostIFName, .LinkSetDown (exLink "eth0")]) ∧
    ((SetupVF (mockManager (failingProgram Call.isSetUp "ENODEV")) exLib exConf "net1" "cid"
        (mockNS 9 none) []).1
        = .error ("error setting up interface in container namespace: "
            ++ exLib.Quote ("error bringing interface up in container ns: "
              ++ exLib.Quote "ENODEV")) ∧
      (SetupVF (mockManager (failingProgram Call.isSetUp "ENODEV")) exLib exConf "net1" "cid"
        (mockNS 9 none) []).2.2
        = .LinkByName exConf.OrigVfState.HostIFName :: setupSetters exConf (exLink "eth0")
            ++ [.LinkSetNsFd (exLink "eth0") 9, .LinkSetName (exLink "eth0") "net1",
              .LinkSetUp (exLink "eth0")]) :=
  ⟨(C10_SetupVF_error_propagation (failingProgram Call.isSetDown "EBUSY") exLib exConf "net1"
      "cid" 9).2.1 (exLink "eth0") "EBUSY" rfl rfl,
    (C10_SetupVF_error_propagation (failingProgram Call.isSetUp "ENODEV") exLib exConf "net1"
      "cid" 9).2.2.2.2.2.2 (exLink "eth0") "ENODEV" rfl (Or.inr rfl)
        ⟨rfl, rfl, rfl, rfl, rfl, trivial⟩ rfl⟩

/-- C10 as stated fails.  In the scenario of the specification: when the
lookup fails with `ENODEV`, and when the rename to the temporary name fails
with `ENODEV`, the error text of `SetupVF` does not contain `ENODEV`; when the
set-up inside the namespace fails, the error text contains neither the host
interface name, nor the temporary name, nor the container interface name. -/
theorem C10_SetupVF_error_propagation_counterexample :
    ((failingProgram Call.isLookup "ENODEV").link [] exConf.OrigVfState.HostIFName
        = .error "ENODEV" ∧
      (SetupVF (mockManager (failingProgram Call.isLookup "ENODEV")) exLib exConf "net1" "cid"
        (mockNS 9 none) []).1 = .error "error getting VF netdevice with name eth0" ∧
      ¬ ("ENODEV".data <:+: "error getting VF netdevice with name eth0".data)) ∧
    ((failingProgram (Call.isRenameTo "temp_7") "ENODEV").err
        [.LinkByName "eth0", .LinkSetDown (exLink "eth0")]
        (.LinkSetName (exLink "eth0") "temp_7") = some "ENODEV" ∧
      (SetupVF (mockManager (failingProgram (Call.isRenameTo "temp_7") "ENODEV")) exLib exConf
        "net1" "cid" (mockNS 9 none) []).1
        = .error "error setting temp IF name temp_7 for eth0" ∧
      ¬ ("ENODEV".data <:+: "error setting temp IF name temp_7 for eth0".data)) ∧
    ((failingProgram Call.isSetUp "ENODEV").err
        [.LinkByName "eth0", .LinkSetDown (exLink "eth0"),
          .LinkSetName (exLink "eth0") "temp_7",
          .LinkSetHardwareAddr (exLink "eth0") [0, 17, 34, 51, 68, 85],
          .LinkSetNsFd (exLink "eth0") 9, .LinkSetName (exLink "eth0") "net1"]
        (.LinkSetUp (exLink "eth0")) = some "ENODEV" ∧
      (SetupVF (mockManager (failingProgram Call.isSetUp "ENODEV")) exLib exConf "net1" "cid"
        (mockNS 9 none) []).1
        = .error ("error setting up interface in container namespace: "
            ++ "\"error bringing interface up in container ns: \\\"ENODEV\\\"\"") ∧
      ¬ ("eth0".data <:+: ("error setting up interface in container namespace: "
            ++ "\"error bringing interface up in container ns: \\\"ENODEV\\\"\"").data) ∧
      ¬ ("temp_7".data <:+: ("error setting up interface in container namespace: "
            ++ "\"error bringing interface up in container ns: \\\"ENODEV\\\"\"").data) ∧
      ¬ ("net1".data <:+: ("error setting up interface in container namespace: "
            ++ "\"error bringing interface up in container ns: \\\"ENODEV\\\"\"").data)) := by
  refine ⟨⟨rfl, rfl, by decide⟩, ⟨rfl, rfl, by decide⟩, ⟨rfl, rfl, by decide, by decide,
    by decide⟩⟩

/-! ## The fake kernel: facts about the device table -/

@[simp] theorem Dev.withName_Index (d : Dev) (n : String) : (d.withName n).Index = d.Index :=
  rfl

@[simp] theorem Dev.withAddr_Index (d : Dev) (hw : net.HardwareAddr) :
    (d.withAddr hw).Index = d.Index := rfl

@[simp] theorem Dev.withUp_Index (d : Dev) (b : Bool) : (d.withUp b).Index = d.Index := rfl

@[simp] theorem Dev.withNs_Index (d : Dev) (ns : Nat) : (d.withNs ns).Index = d.Index := rfl

@[simp] theorem Kernel.logged_devs (k : Kernel) (c : Call) (b : Bool) :
    (k.logged c b).devs = k.devs := rfl

@[simp] theorem Kernel.logged_cur (k : Kernel) (c : Call) (b : Bool) :
    (k.logged c b).cur = k.cur := rfl

@[simp] theorem Kernel.logged_log (k : Kernel) (c : Call) (b : Bool) :
    (k.logged c b).log = k.log ++ [(c, b)] := rfl

@[simp] theorem Kernel.modify_cur (k : Kernel) (i : Int) (f : Dev → Dev) :
    (k.modify i f).cur = k.cur := rfl

@[simp] theorem Kernel.modify_log (k : Kernel) (i : Int) (f : Dev → Dev) :
    (k.modify i f).log = k.log := rfl

@[simp] theorem Kernel.dev?_logged (k : Kernel) (c : Call) (b : Bool) (i : Int) :
    (k.logged c b).dev? i = k.dev? i := rfl

@[simp] theorem Kernel.dev?_setCur (k : Kernel) (n : Nat) (i : Int) :
    (k.setCur n).dev? i = k.dev? i := rfl

@[simp] theorem Kernel.setCur_cur (k : Kernel) (n : Nat) : (k.setCur n).cur = n := rfl

@[simp] theorem Kernel.setCur_devs (k : Kernel) (n : Nat) : (k.setCur n).devs = k.devs := rfl

@[simp] theorem Kernel.setCur_log (k : Kernel) (n : Nat) : (k.setCur n).log = k.log := rfl

/-- Updating the device with index `i` by a function that keeps the index
updates what the lookup by index `i` gives. -/
theorem Kernel.dev?_modify (k : Kernel) (i : Int) (f : Dev → Dev)
    (hf : ∀ d, (f d).Index = d.Index) :
    (k.modify i f).dev? i = (k.dev? i).map f := by
  obtain ⟨devs, cur, log⟩ := k
  simp only [Kernel.modify, Kernel.dev?]
  induction devs with
  | nil => rfl
  | cons a as ih =>
    by_cases ha : a.Index = i
    · simp [List.find?, ha, hf]
    · have hb : (a.Index == i) = false := by simp [ha]
      simp only [List.map_cons, ha, if_false, List.find?, hb]
      exact ih

/-- With unique interface indices, the lookup by the index of a device of the
table gives that device. -/
theorem Kernel.dev?_of_mem (k : Kernel) (d : Dev) (hn : (k.devs.map Dev.Index).Nodup)
    (hm : d ∈ k.devs) : k.dev? d.Index = some d := by
  obtain ⟨devs, cur, log⟩ := k
  simp only [Kernel.dev?] at *
  induction devs with
  | nil => simp at hm
  | cons a as ih =>
    simp only [List.map_cons, List.nodup_cons, List.mem_map, not_exists, not_and] at hn
    rcases List.mem_cons.1 hm with rfl | hm'
    · simp [List.find?]
    · have hne : a.Index ≠ d.Index := fun h => hn.1 d hm' h.symm
      have hb : (a.Index == d.Index) = false := by simp [hne]
      simp only [List.find?, hb]
      exact ih hn.2 hm'

/-- What a successful lookup by name tells about the device. -/
theorem Kernel.byName_some (k : Kernel) (n : String) (d : Dev) (h : k.byName n = some d) :
    d ∈ k.devs ∧ d.Ns = k.cur ∧ d.Name = n := by
  unfold Kernel.byName at h
  have h1 := List.mem_of_find?_eq_some h
  have h2 := List.find?_some h
  simp only [Bool.and_eq_true, beq_iff_eq] at h2
  exact ⟨h1, h2.1, h2.2⟩

/-- The lookup by index gives a device of the table with that index. -/
theorem Kernel.dev?_some (k : Kernel) (i : Int) (d : Dev) (h : k.dev? i = some d) :
    d ∈ k.devs ∧ d.Index = i := by
  unfold Kernel.dev? at h
  have h1 := List.mem_of_find?_eq_some h
  have h2 := List.find?_some h
  simp only [beq_iff_eq] at h2
  exact ⟨h1, h2⟩

/-- Every device of namespace `ns` named `n` has interface index `i`. -/
theorem Kernel.owner_of_not_taken (k : Kernel) (ns : Nat) (n : String) (i : Int)
    (h : k.nameTaken ns n i = false) :
    ∀ x ∈ k.devs, x.Ns = ns → x.Name = n → x.Index = i := by
  intro x hx hns hname
  simp only [Kernel.nameTaken, List.any_eq_false, Bool.and_eq_true, beq_iff_eq, bne_iff_ne,
    ne_eq, not_and, not_not] at h
  exact h x hx ⟨hns, hname⟩

/-- A rename of device `i` to a name free in its namespace makes `i` the only
index under that name there. -/
theorem Kernel.owner_rename (k : Kernel) (ns : Nat) (n : String) (i : Int)
    (h : k.nameTaken ns n i = false) :
    ∀ x ∈ (k.modify i (fun d => d.withName n)).devs,
      x.Ns = ns → x.Name = n → x.Index = i := by
  intro x hx hns hname
  simp only [Kernel.modify, List.mem_map] at hx
  obtain ⟨y, hy, rfl⟩ := hx
  by_cases hyi : y.Index = i
  · simp [hyi, Dev.withName]
  · simp only [hyi, if_false] at hns hname ⊢
    exact absurd (Kernel.owner_of_not_taken k ns n i h y hy hns hname) hyi

/-- An update of device `i` that keeps the index keeps `i` the only index
under a name. -/
theorem Kernel.owner_modify (k : Kernel) (ns : Nat) (n : String) (i : Int) (f : Dev → Dev)
    (hf : ∀ d, (f d).Index = d.Index)
    (h : ∀ x ∈ k.devs, x.Ns = ns → x.Name = n → x.Index = i) :
    ∀ x ∈ (k.modify i f).devs, x.Ns = ns → x.Name = n → x.Index = i := by
  intro x hx hns hname
  simp only [Kernel.modify, List.mem_map] at hx
  obtain ⟨y, hy, rfl⟩ := hx
  by_cases hyi : y.Index = i
  · simp [hyi, hf]
  · simp only [hyi, if_false] at hns hname ⊢
    exact absurd (h y hy hns hname) hyi

/-- A setter keeps the earlier entries of the record. -/
theorem Kernel.setLink_log (k : Kernel) (c : Call) (i : Int) (busy : Dev → Option String)
    (f : Dev → Dev) (e : Call × Bool) (h : e ∈ k.log) :
    e ∈ (k.setLink c i busy f).2.log := by
  unfold Kernel.setLink
  repeat' split
  all_goals simp_all

/-! ## The fake kernel: the calls used by `SetupVF` and `ReleaseVF` -/

@[simp] theorem kernelNS_Fd (n : Nat) : (kernelNS n).Fd = (n : Int) := rfl

theorem kernelNS_Do (n : Nat) (f : Kernel → Option String × Kernel) (k : Kernel) :
    (kernelNS n).Do f k = ((f (k.setCur n)).1, (f (k.setCur n)).2.setCur k.cur) :=
  rfl

/-- A record with a failed call is not all successes. -/
theorem Kernel.not_allOk_logged (k : Kernel) (c : Call) : ¬ (k.logged c false).allOk := by
  intro hall
  have := hall (c, false) (by simp)
  simp at this

/-- The lookup by name on the fake kernel, when the device is there. -/
theorem fake_LinkByName_some (k : Kernel) (n : String) (d : Dev) (h : k.byName n = some d) :
    fakeNetlink.LinkByName n k = (.ok d.link, k.logged (.LinkByName n) true) := by
  simp [fakeNetlink, h]

/-- The lookup by name on the fake kernel, when no device is there. -/
theorem fake_LinkByName_none (k : Kernel) (n : String) (h : k.byName n = none) :
    fakeNetlink.LinkByName n k = (.error "Link not found", k.logged (.LinkByName n) false) := by
  simp [fakeNetlink, h]

/-- The set-down on the fake kernel succeeds on a device of the current
namespace. -/
theorem fake_LinkSetDown (k : Kernel) (l : Link) (d : Dev) (hd : k.dev? l.Index = some d)
    (hns : d.Ns = k.cur) :
    fakeNetlink.LinkSetDown l k
      = (none, (k.modify l.Index (fun d => d.withUp false)).logged (.LinkSetDown l) true) := by
  simp [fakeNetlink, Kernel.setLink, hd, hns]

/-- The set-up on the fake kernel succeeds on a device of the current
namespace. -/
theorem fake_LinkSetUp (k : Kernel) (l : Link) (d : Dev) (hd : k.dev? l.Index = some d)
    (hns : d.Ns = k.cur) :
    fakeNetlink.LinkSetUp l k
      = (none, (k.modify l.Index (fun d => d.withUp true)).logged (.LinkSetUp l) true) := by
  simp [fakeNetlink, Kernel.setLink, hd, hns]

/-- The hardware-address set on the fake kernel succeeds on a device of the
current namespace. -/
theorem fake_LinkSetHardwareAddr (k : Kernel) (l : Link) (hw : net.HardwareAddr) (d : Dev)
    (hd : k.dev? l.Index = some d) (hns : d.Ns = k.cur) :
    fakeNetlink.LinkSetHardwareAddr l hw k
      = (none, (k.modify l.Index (fun d => d.withAddr hw)).logged
          (.LinkSetHardwareAddr l hw) true) := by
  simp [fakeNetlink, Kernel.setLink, hd, hns]

/-- The rename on the fake kernel, on a device of the current namespace: it
is refused and recorded as failed, or it is not refused and renames. -/
theorem fake_LinkSetName (k : Kernel) (l : Link) (n : String) (d : Dev)
    (hd : k.dev? l.Index = some d) (hns : d.Ns = k.cur) :
    (∃ e, fakeNetlink.LinkSetName l n k = (some e, k.logged (.LinkSetName l n) false)) ∨
    (k.renameBusy n d = none ∧
      fakeNetlink.LinkSetName l n k
        = (none, (k.modify l.Index (fun d => d.withName n)).logged
            (.LinkSetName l n) true)) := by
  cases hb : k.renameBusy n d with
  | some e => exact Or.inl ⟨e, by simp [fakeNetlink, Kernel.setLink, hd, hns, hb]⟩
  | none => exact Or.inr ⟨rfl, by simp [fakeNetlink, Kernel.setLink, hd, hns, hb]⟩

/-- The namespace move on the fake kernel, on a device of the current
namespace: it is refused and recorded as failed, or it is not refused and
moves the device. -/
theorem fake_LinkSetNsFd (k : Kernel) (l : Link) (fd : Int) (d : Dev)
    (hd : k.dev? l.Index = some d) (hns : d.Ns = k.cur) :
    (∃ e, fakeNetlink.LinkSetNsFd l fd k = (some e, k.logged (.LinkSetNsFd l fd) false)) ∨
    (k.moveBusy fd d = none ∧
      fakeNetlink.LinkSetNsFd l fd k
        = (none, (k.modify l.Index (fun d => d.withNs fd.toNat)).logged
            (.LinkSetNsFd l fd) true)) := by
  cases hb : k.moveBusy fd d with
  | some e => exact Or.inl ⟨e, by simp [fakeNetlink, Kernel.setLink, hd, hns, hb]⟩
  | none => exact Or.inr ⟨rfl, by simp [fakeNetlink, Kernel.setLink, hd, hns, hb]⟩

/-- What a rename that is not refused tells. -/
theorem Kernel.renameBusy_none (k : Kernel) (n : String) (d : Dev)
    (h : k.renameBusy n d = none) :
    d.Up = false ∧ n ≠ "" ∧ k.nameTaken d.Ns n d.Index = false := by
  unfold Kernel.renameBusy at h
  repeat' split at h
  all_goals simp_all

/-- Steps 4 to 7 of `SetupVF` on the fake kernel, from a state in which the
device is in the current namespace: a call is recorded as failed, or the steps
succeed and leave the device up in the target namespace under the container
interface name, which no other device there carries. -/
theorem SetupVF_tail_fake (quote : String → String) (conf : NetConf) (l : Link)
    (podifName linkName tempName mac : String) (cns : Nat) (k : Kernel) (d : Dev)
    (hd : k.dev? l.Index = some d) (hns : d.Ns = k.cur) :
    ¬ (SetupVF.tail fakeManager (fakeLib quote) conf l podifName linkName tempName mac
        (kernelNS cns) k).2.2.allOk ∨
    ((SetupVF.tail fakeManager (fakeLib quote) conf l podifName linkName tempName mac
        (kernelNS cns) k).1 = .ok mac ∧
      (SetupVF.tail fakeManager (fakeLib quote) conf l podifName linkName tempName mac
        (kernelNS cns) k).2.1 = { conf with ContIFNames := podifName } ∧
      (SetupVF.tail fakeManager (fakeLib quote) conf l podifName linkName tempName mac
        (kernelNS cns) k).2.2.cur = k.cur ∧
      (SetupVF.tail fakeManager (fakeLib quote) conf l podifName linkName tempName mac
        (kernelNS cns) k).2.2.dev? l.Index
          = some (((d.withNs cns).withName podifName).withUp true) ∧
      podifName ≠ "" ∧
      ∀ x ∈ (SetupVF.tail fakeManager (fakeLib quote) conf l podifName linkName tempName mac
        (kernelNS cns) k).2.2.devs, x.Ns = cns → x.Name = podifName → x.Index = l.Index) := by
  unfold SetupVF.tail
  simp only [fakeManager, kernelNS_Fd, kernelNS_Do]
  rcases fake_LinkSetNsFd k l (cns : Int) d hd hns with ⟨e, h1⟩ | ⟨hb1, h1⟩
  · left
    simp only [h1]
    exact Kernel.not_allOk_logged _ _
  · simp only [h1]
    unfold SetupVF.inNs
    simp only [fakeManager]
    have hd5 : (((k.modify l.Index (fun d => d.withNs (cns : Int).toNat)).logged
        (.LinkSetNsFd l cns) true).setCur cns).dev? l.Index = some (d.withNs cns) := by
      simp [Kernel.dev?_modify, hd]
    rcases fake_LinkSetName _ l podifName _ hd5 rfl with ⟨e, h2⟩ | ⟨hb2, h2⟩
    · left
      simp only [h2]
      exact Kernel.not_allOk_logged _ _
    · simp only [h2]
      obtain ⟨-, hpod, hfree⟩ := Kernel.renameBusy_none _ _ _ hb2
      have hd6 : (((((k.modify l.Index (fun d => d.withNs (cns : Int).toNat)).logged
          (.LinkSetNsFd l cns) true).setCur cns).modify l.Index
            (fun d => d.withName podifName)).logged (.LinkSetName l podifName) true).dev? l.Index
          = some ((d.withNs cns).withName podifName) := by
        simp [Kernel.dev?_modify, hd]
      have h3 := fake_LinkSetUp _ l _ hd6 rfl
      simp only [h3]
      right
      refine ⟨?_, ?_, ?_, ?_, hpod, ?_⟩
      · simp
      · simp
      · simp
      · simp [Kernel.dev?_modify, hd]
      · have hidx : (d.withNs cns).Index = l.Index := (Kernel.dev?_some _ _ _ hd5).2
        simp only [hidx] at hfree
        intro x hx
        refine Kernel.owner_modify _ cns podifName l.Index (fun d => d.withUp true)
          (fun _ => rfl) ?_ x hx
        exact Kernel.owner_rename _ cns podifName l.Index hfree

theorem fakeManager_nLink : fakeManager.nLink = fakeNetlink := rfl

@[simp] theorem Dev.link_Index (d : Dev) : d.link.Index = d.Index := rfl

@[simp] theorem Dev.link_HardwareAddr (d : Dev) : d.link.HardwareAddr = d.HardwareAddr := rfl

/-- The temporary name is not the empty string. -/
theorem temp_ne_empty (i : Int) : "temp_" ++ toString i ≠ "" := by
  intro h
  have := congrArg String.length h
  simp at this
  exact absurd this.1 (by decide)

/-- `SetupVF` on the fake kernel, for a device found under the host name in
the current namespace: a call is recorded as failed, or `SetupVF` succeeds and
leaves the device in the target namespace under the container interface name,
which no other device there carries; the record of the configuration then holds
the container interface name and, when a MAC was requested, the text of the
device's former hardware address. -/
theorem SetupVF_fake (quote : String → String) (conf : NetConf) (podifName cid : String)
    (cns : Nat) (k : Kernel) (d : Dev)
    (hidx : (k.devs.map Dev.Index).Nodup)
    (hdev : k.byName conf.OrigVfState.HostIFName = some d)
    (hmac : conf.MAC = "" ∨ (net.ParseMAC conf.MAC).isSome = true) :
    ¬ (SetupVF fakeManager (fakeLib quote) conf podifName cid (kernelNS cns) k).2.2.allOk ∨
    ((∃ mac, (SetupVF fakeManager (fakeLib quote) conf podifName cid (kernelNS cns) k).1
        = .ok mac) ∧
      (SetupVF fakeManager (fakeLib quote) conf podifName cid (kernelNS cns) k).2.1.ContIFNames
        = podifName ∧
      (SetupVF fakeManager (fakeLib quote) conf podifName cid (kernelNS cns) k).2.1.MAC
        = conf.MAC ∧
      (SetupVF fakeManager (fakeLib quote) conf podifName cid
        (kernelNS cns) k).2.1.OrigVfState.HostIFName = conf.OrigVfState.HostIFName ∧
      (conf.MAC ≠ "" →
        (SetupVF fakeManager (fakeLib quote) conf podifName cid
          (kernelNS cns) k).2.1.OrigVfState.EffectiveMAC = d.HardwareAddr.String) ∧
      (SetupVF fakeManager (fakeLib quote) conf podifName cid (kernelNS cns) k).2.2.cur
        = k.cur ∧
      (∃ dv, (SetupVF fakeManager (fakeLib quote) conf podifName cid
          (kernelNS cns) k).2.2.dev? d.Index = some dv ∧
        dv.Ns = cns ∧ dv.Name = podifName ∧
        (conf.MAC = "" → dv.HardwareAddr = d.HardwareAddr)) ∧
      podifName ≠ "" ∧
      ∀ x ∈ (SetupVF fakeManager (fakeLib quote) conf podifName cid (kernelNS cns) k).2.2.devs,
        x.Ns = cns → x.Name = podifName → x.Index = d.Index) := by
  obtain ⟨hmem, hns, -⟩ := Kernel.byName_some k _ d hdev
  have hd0 : k.dev? d.Index = some d := Kernel.dev?_of_mem k d hidx hmem
  have e1 := fake_LinkByName_some k _ d hdev
  unfold SetupVF
  simp only [fakeManager_nLink, e1]
  have e2 := fake_LinkSetDown (k.logged (.LinkByName conf.OrigVfState.HostIFName) true) d.link d
    (by simpa using hd0) (by simpa using hns)
  simp only [e2]
  have hd2 : (((k.logged (.LinkByName conf.OrigVfState.HostIFName) true).modify d.link.Index
      (fun x => x.withUp false)).logged (.LinkSetDown d.link) true).dev? d.link.Index
      = some (d.withUp false) := by
    simp [Kernel.dev?_modify, hd0]
  rcases fake_LinkSetName _ d.link ("temp_" ++ toString d.link.Index) _ hd2
      (by simpa [Dev.withUp] using hns) with ⟨e, h3⟩ | ⟨-, h3⟩
  · left
    simp only [h3]
    exact Kernel.not_allOk_logged _ _
  · simp only [h3]
    have hd3 : (((((k.logged (.LinkByName conf.OrigVfState.HostIFName) true).modify d.link.Index
        (fun x => x.withUp false)).logged (.LinkSetDown d.link) true).modify d.link.Index
          (fun x => x.withName ("temp_" ++ toString d.link.Index))).logged
            (.LinkSetName d.link ("temp_" ++ toString d.link.Index)) true).dev? d.link.Index
        = some ((d.withUp false).withName ("temp_" ++ toString d.link.Index)) := by
      simp [Kernel.dev?_modify, hd0]
    by_cases hm : conf.MAC = ""
    · simp only [hm, ne_eq, not_true_eq_false, ite_false]
      rcases SetupVF_tail_fake quote conf d.link podifName conf.OrigVfState.HostIFName
          ("temp_" ++ toString d.link.Index) d.link.HardwareAddr.String cns _ _ hd3
          (by simpa [Dev.withUp, Dev.withName] using hns) with h | ⟨h1, h2, h3, h4, h5, h6⟩
      · exact Or.inl h
      · right
        refine ⟨⟨_, h1⟩, ?_, ?_, ?_, ?_, ?_, ?_, h5, ?_⟩
        · rw [h2]
        · rw [h2]; exact hm
        · rw [h2]
        · intro hne; exact hne.elim
        · rw [h3]; rfl
        · exact ⟨_, h4, rfl, rfl, fun _ => rfl⟩
        · exact h6
    · obtain ⟨hwaddr, hparse⟩ := Option.isSome_iff_exists.1 (hmac.resolve_left hm)
      simp only [hm, ne_eq, not_false_eq_true, ite_true, hparse]
      have e4 := fake_LinkSetHardwareAddr _ d.link hwaddr _ hd3
        (by simpa [Dev.withUp, Dev.withName] using hns)
      simp only [e4]
      have hd4 : (((((((k.logged (.LinkByName conf.OrigVfState.HostIFName) true).modify
          d.link.Index (fun x => x.withUp false)).logged (.LinkSetDown d.link) true).modify
            d.link.Index (fun x => x.withName ("temp_" ++ toString d.link.Index))).logged
              (.LinkSetName d.link ("temp_" ++ toString d.link.Index)) true).modify
                d.link.Index (fun x => x.withAddr hwaddr)).logged
                  (.LinkSetHardwareAddr d.link hwaddr) true).dev? d.link.Index
          = some (((d.withUp false).withName ("temp_" ++ toString d.link.Index)).withAddr
              hwaddr) := by
        simp [Kernel.dev?_modify, hd0]
      rcases SetupVF_tail_fake quote
          { conf with OrigVfState :=
              { conf.OrigVfState with EffectiveMAC := d.link.HardwareAddr.String } }
          d.link podifName conf.OrigVfState.HostIFName
          ("temp_" ++ toString d.link.Index) conf.MAC cns _ _ hd4
          (by simpa [Dev.withUp, Dev.withName, Dev.withAddr] using hns)
        with h | ⟨h1, h2, h3, h4, h5, h6⟩
      · exact Or.inl h
      · right
        refine ⟨⟨_, h1⟩, ?_, ?_, ?_, ?_, ?_, ?_, h5, ?_⟩
        · rw [h2]
        · rw [h2]
        · rw [h2]
        · intro _; rw [h2]; rfl
        · rw [h3]; rfl
        · exact ⟨_, h4, rfl, rfl, fun h => h.elim⟩
        · exact h6

theorem fakeLib_GetCurrentNS (quote : String → String) (k : Kernel) :
    (fakeLib quote).GetCurrentNS k = (.ok (kernelNS k.cur), k) := rfl

/-- The lookup by index after an update that keeps the index and a record
entry. -/
theorem Kernel.dev?_modify_logged (k : Kernel) (i : Int) (f : Dev → Dev) (c : Call) (b : Bool)
    (hf : ∀ d, (f d).Index = d.Index) (d : Dev) (h : k.dev? i = some d) :
    ((k.modify i f).logged c b).dev? i = some (f d) := by
  rw [Kernel.dev?_logged, Kernel.dev?_modify k i f hf, h]
  rfl

/-- `ReleaseVF` on the fake kernel, from a state in which the device with
index `i` is in namespace `cns` and is the only one there that can carry the
container interface name: a call is recorded as failed, or `ReleaseVF` succeeds
and leaves the device in the namespace of the caller under the host interface
name, with the parsed original address when a MAC had been requested and with
its address untouched otherwise. -/
theorem ReleaseVF_fake (quote : String → String) (conf : NetConf) (podifName cid : String)
    (cns : Nat) (k : Kernel) (i : Int) (dv : Dev) (hw0 : net.HardwareAddr)
    (hd : k.dev? i = some dv) (hns : dv.Ns = cns)
    (hcont : conf.ContIFNames = podifName) (hpod : podifName ≠ "")
    (hown : ∀ x ∈ k.devs, x.Ns = cns → x.Name = podifName → x.Index = i)
    (hparse : conf.MAC ≠ "" → net.ParseMAC conf.OrigVfState.EffectiveMAC = some hw0) :
    ¬ (ReleaseVF fakeManager (fakeLib quote) conf podifName cid (kernelNS cns) k).2.allOk ∨
    ((ReleaseVF fakeManager (fakeLib quote) conf podifName cid (kernelNS cns) k).1 = none ∧
      ∃ dv', (ReleaseVF fakeManager (fakeLib quote) conf podifName cid
          (kernelNS cns) k).2.dev? i = some dv' ∧
        dv'.Name = conf.OrigVfState.HostIFName ∧ dv'.Ns = k.cur ∧
        dv'.HardwareAddr = if conf.MAC = "" then dv.HardwareAddr else hw0) := by
  have hlen : ¬ (len conf.ContIFNames < 1
      ∧ len conf.ContIFNames ≠ len conf.OrigVfState.HostIFName) := by
    intro h
    have h0 : len conf.ContIFNames = 0 := by omega
    exact hpod (hcont ▸ (len_eq_zero_iff _).1 h0)
  unfold ReleaseVF
  simp only [fakeLib_GetCurrentNS, hlen, if_false, kernelNS_Do]
  unfold ReleaseVF.inNs
  simp only [fakeManager_nLink]
  cases hb : (k.setCur cns).byName podifName with
  | none =>
    left
    simp only [fake_LinkByName_none _ _ hb]
    exact Kernel.not_allOk_logged _ _
  | some d2 =>
    obtain ⟨hmem2, hns2, hname2⟩ := Kernel.byName_some _ _ _ hb
    have hi2 : d2.link.Index = i := hown d2 hmem2 hns2 hname2
    simp only [fake_LinkByName_some _ _ _ hb]
    have hd1 : (((k.setCur cns).logged (.LinkByName podifName) true)).dev? d2.link.Index
        = some dv := by
      rw [hi2]; simpa using hd
    have e2 := fake_LinkSetDown _ d2.link dv hd1 (by simpa using hns)
    simp only [e2]
    have hd2 : ((((k.setCur cns).logged (.LinkByName podifName) true).modify d2.link.Index
        (fun x => x.withUp false)).logged (.LinkSetDown d2.link) true).dev? d2.link.Index
        = some (dv.withUp false) := by
      exact Kernel.dev?_modify_logged _ _ (fun x => x.withUp false) _ _ (fun _ => rfl) _ hd1
    rcases fake_LinkSetName _ d2.link conf.OrigVfState.HostIFName _ hd2
        (by simpa [Dev.withUp] using hns) with ⟨e, h3⟩ | ⟨-, h3⟩
    · left
      simp only [h3]
      exact Kernel.not_allOk_logged _ _
    · simp only [h3]
      have hd3 : ((((((k.setCur cns).logged (.LinkByName podifName) true).modify d2.link.Index
          (fun x => x.withUp false)).logged (.LinkSetDown d2.link) true).modify d2.link.Index
            (fun x => x.withName conf.OrigVfState.HostIFName)).logged
              (.LinkSetName d2.link conf.OrigVfState.HostIFName) true).dev? d2.link.Index
          = some ((dv.withUp false).withName conf.OrigVfState.HostIFName) := by
        exact Kernel.dev?_modify_logged _ _ (fun x => x.withName conf.OrigVfState.HostIFName)
          _ _ (fun _ => rfl) _ hd2
      by_cases hm : conf.MAC = ""
      · simp only [hm, ne_eq, not_true_eq_false, ite_false, ite_true]
        unfold ReleaseVF.moveBack
        simp only [fakeManager_nLink, kernelNS_Fd]
        rcases fake_LinkSetNsFd _ d2.link (k.cur : Int) _ hd3
            (by simpa [Dev.withUp, Dev.withName] using hns) with ⟨e, h5⟩ | ⟨-, h5⟩
        · left
          simp only [h5]
          exact Kernel.not_allOk_logged _ _
        · right
          simp only [h5]
          refine ⟨trivial, ((dv.withUp false).withName conf.OrigVfState.HostIFName).withNs
            (k.cur : Int).toNat, ?_, ?_⟩
          · rw [← hi2, Kernel.dev?_setCur]
            exact Kernel.dev?_modify_logged _ _ (fun x => x.withNs (k.cur : Int).toNat) _ _
              (fun _ => rfl) _ hd3
          · simp [Dev.withNs, Dev.withName, Dev.withUp]
      · have hp := hparse hm
        simp only [hm, ne_eq, not_false_eq_true, ite_true, ite_false, hp]
        have e4 := fake_LinkSetHardwareAddr _ d2.link hw0 _ hd3
          (by simpa [Dev.withUp, Dev.withName] using hns)
        simp only [e4]
        have hd4 : ((((((((k.setCur cns).logged (.LinkByName podifName) true).modify
            d2.link.Index (fun x => x.withUp false)).logged (.LinkSetDown d2.link) true).modify
              d2.link.Index (fun x => x.withName conf.OrigVfState.HostIFName)).logged
                (.LinkSetName d2.link conf.OrigVfState.HostIFName) true).modify d2.link.Index
                  (fun x => x.withAddr hw0)).logged
                    (.LinkSetHardwareAddr d2.link hw0) true).dev? d2.link.Index
            = some (((dv.withUp false).withName conf.OrigVfState.HostIFName).withAddr hw0) := by
          exact Kernel.dev?_modify_logged _ _ (fun x => x.withAddr hw0) _ _ (fun _ => rfl) _ hd3
        unfold ReleaseVF.moveBack
        simp only [fakeManager_nLink, kernelNS_Fd]
        rcases fake_LinkSetNsFd _ d2.link (k.cur : Int) _ hd4
            (by simpa [Dev.withUp, Dev.withName, Dev.withAddr] using hns) with ⟨e, h5⟩ | ⟨-, h5⟩
        · left
          simp only [h5]
          exact Kernel.not_allOk_logged _ _
        · right
          simp only [h5]
          refine ⟨trivial, (((dv.withUp false).withName conf.OrigVfState.HostIFName).withAddr
            hw0).withNs (k.cur : Int).toNat, ?_, ?_⟩
          · rw [← hi2, Kernel.dev?_setCur]
            exact Kernel.dev?_modify_logged _ _ (fun x => x.withNs (k.cur : Int).toNat) _ _
              (fun _ => rfl) _ hd4
          · simp [Dev.withNs, Dev.withName, Dev.withUp, Dev.withAddr]

/-- The lookup by name on the fake kernel keeps the earlier entries of the
record. -/
theorem fake_LinkByName_log (k : Kernel) (n : String) (e : Call × Bool) (h : e ∈ k.log) :
    e ∈ (fakeNetlink.LinkByName n k).2.log := by
  cases hb : k.byName n with
  | none => simp [fake_LinkByName_none _ _ hb, h]
  | some d => simp [fake_LinkByName_some _ _ _ hb, h]

theorem fake_LinkSetDown_log (k : Kernel) (l : Link) (e : Call × Bool) (h : e ∈ k.log) :
    e ∈ (fakeNetlink.LinkSetDown l k).2.log := Kernel.setLink_log k _ _ _ _ e h

theorem fake_LinkSetName_log (k : Kernel) (l : Link) (n : String) (e : Call × Bool)
    (h : e ∈ k.log) : e ∈ (fakeNetlink.LinkSetName l n k).2.log :=
  Kernel.setLink_log k _ _ _ _ e h

theorem fake_LinkSetHardwareAddr_log (k : Kernel) (l : Link) (hw : net.HardwareAddr)
    (e : Call × Bool) (h : e ∈ k.log) : e ∈ (fakeNetlink.LinkSetHardwareAddr l hw k).2.log :=
  Kernel.setLink_log k _ _ _ _ e h

theorem fake_LinkSetNsFd_log (k : Kernel) (l : Link) (fd : Int) (e : Call × Bool)
    (h : e ∈ k.log) : e ∈ (fakeNetlink.LinkSetNsFd l fd k).2.log :=
  Kernel.setLink_log k _ _ _ _ e h

/-- `ReleaseVF` on the fake kernel keeps the earlier entries of the record. -/
theorem ReleaseVF_fake_log (quote : String → String) (conf : NetConf) (podifName cid : String)
    (cns : Nat) (k : Kernel) (e : Call × Bool) (h : e ∈ k.log) :
    e ∈ (ReleaseVF fakeManager (fakeLib quote) conf podifName cid (kernelNS cns) k).2.log := by
  have h0 : e ∈ (k.setCur cns).log := h
  have h1 := fake_LinkByName_log _ podifName e h0
  unfold ReleaseVF
  simp only [fakeLib_GetCurrentNS, kernelNS_Do]
  split
  · exact h
  · unfold ReleaseVF.inNs ReleaseVF.moveBack
    simp only [fakeManager_nLink, Kernel.setCur_log]
    split
    · exact h1
    · rename_i l _
      have h2 := fake_LinkSetDown_log _ l e h1
      split
      · exact h2
      · have h3 := fake_LinkSetName_log _ l conf.OrigVfState.HostIFName e h2
        split
        · exact h3
        · split
          · split
            · exact h3
            · rename_i hw _
              have h4 := fake_LinkSetHardwareAddr_log _ l hw e h3
              split
              · exact h4
              · have h5 := fake_LinkSetNsFd_log _ l (kernelNS k.cur).Fd e h4
                split <;> exact h5
          · have h5 := fake_LinkSetNsFd_log _ l (kernelNS k.cur).Fd e h3
            split <;> exact h5

/-! ## The text of a hardware address parses back -/

/-- The two hex digits of a byte read back as the byte. -/
theorem xtoi_hexDigits (b : Fin 256) :
    xtoi [hexDigit (b.val / 16), hexDigit (b.val % 16)] = (b.val, 2, true) := by
  revert b
  decide

/-- The two hex digits of a byte, alone or followed by a colon, read back as
the byte. -/
theorem xtoi2_hexDigits (b : Nat) (hb : b < 256) (rest : List Char) :
    xtoi2 [hexDigit (b / 16), hexDigit (b % 16)] (some ':') = some b ∧
    xtoi2 (hexDigit (b / 16) :: hexDigit (b % 16) :: ':' :: rest) (some ':') = some b := by
  have h := xtoi_hexDigits ⟨b, hb⟩
  simp only at h
  constructor
  · simp [xtoi2, h, Nat.mod_eq_of_lt hb]
  · simp [xtoi2, h, Nat.mod_eq_of_lt hb]

/-- The loop of `net.ParseMAC` reads the text of a non-empty address back. -/
theorem parseLoop3_hwChars (a : List Nat) (hwf : ∀ b ∈ a, b < 256) (hne : a ≠ []) :
    parseLoop3 ':' a.length (hwChars a) = some a := by
  induction a with
  | nil => exact absurd rfl hne
  | cons b bs ih =>
    have hb : b < 256 := hwf b (List.mem_cons_self _ _)
    cases bs with
    | nil =>
      simp [hwChars, parseLoop3, (xtoi2_hexDigits b hb []).1]
    | cons c cs =>
      have ih' := ih (fun x hx => hwf x (List.mem_cons_of_mem _ hx)) (by simp)
      simp only [List.length_cons] at ih' ⊢
      simp only [hwChars]
      rw [parseLoop3, (xtoi2_hexDigits b hb _).2]
      simp only [List.drop_succ_cons, List.drop_zero]
      rw [ih']

/-- The length of the text of a non-empty address. -/
theorem hwChars_length (a : List Nat) (hne : a ≠ []) :
    (hwChars a).length + 1 = 3 * a.length := by
  induction a with
  | nil => exact absurd rfl hne
  | cons b bs ih =>
    cases bs with
    | nil => simp [hwChars]
    | cons c cs =>
      have ih' := ih (by simp)
      simp only [hwChars, List.length_cons] at ih' ⊢
      omega

/-- The third character of the text of an address of two bytes or more is the
colon. -/
theorem hwChars_get2 (a : List Nat) (h : 2 ≤ a.length) : (hwChars a).get? 2 = some ':' := by
  match a, h with
  | b :: c :: bs, _ => simp [hwChars]

/-- The text of a hardware address of 6, 8 or 20 bytes parses back to the
address (Go `net.ParseMAC` after `HardwareAddr.String`). -/
theorem ParseMAC_String (a : net.HardwareAddr) (hwf : ∀ b ∈ a, b < 256)
    (hlen : a.length = 6 ∨ a.length = 8 ∨ a.length = 20) :
    net.ParseMAC a.String = some a := by
  have hne : a ≠ [] := by
    intro h
    simp [h] at hlen
  have h1 := hwChars_length a hne
  have h2 := hwChars_get2 a (by omega)
  have h3 := parseLoop3_hwChars a hwf hne
  have hl : (hwChars a).length = 3 * a.length - 1 := by omega
  have hn : ((hwChars a).length + 1) / 3 = a.length := by omega
  have hmod : ((hwChars a).length + 1) % 3 = 0 := by omega
  have h14 : ¬ (hwChars a).length < 14 := by omega
  have hd : (hwChars a).getD 2 ':' = ':' := by
    have h2' : (hwChars a)[2]? = some ':' := by simpa using h2
    simp [List.getD, h2']
  have hcases : ¬ (a.length ≠ 6 ∧ a.length ≠ 8 ∧ a.length ≠ 20) := by omega
  simp only [net.ParseMAC, net.HardwareAddr.String, parseMACChars, h14, if_false, h2, true_or,
    if_true, hmod, ne_eq, not_true_eq_false, hn, hcases, hd, h3]

/-- C1 (as amended): on the fake kernel with unique interface indices, for a
device found under `OrigVfState.HostIFName` in the namespace of the caller, a
requested MAC that is empty or parses, and (when a MAC is requested) a hardware
address that parses back from its own text: if every device-control call of
`SetupVF` followed by `ReleaseVF` (same configuration record, same container
interface name) succeeds, both operations succeed and the device is left with
its original host name, its original hardware address and in the namespace of
the caller. -/
theorem C1_SetupVF_ReleaseVF_round_trip (quote : String → String) (conf : NetConf)
    (podifName cid : String) (cns : Nat) (k : Kernel) (d : Dev)
    (hidx : (k.devs.map Dev.Index).Nodup)
    (hdev : k.byName conf.OrigVfState.HostIFName = some d)
    (hmac : conf.MAC = "" ∨ (net.ParseMAC conf.MAC).isSome = true)
    (haddr : conf.MAC ≠ "" → net.ParseMAC d.HardwareAddr.String = some d.HardwareAddr)
    (hok : (ReleaseVF fakeManager (fakeLib quote)
      (SetupVF fakeManager (fakeLib quote) conf podifName cid (kernelNS cns) k).2.1
      podifName cid (kernelNS cns)
      (SetupVF fakeManager (fakeLib quote) conf podifName cid (kernelNS cns) k).2.2).2.allOk) :
    (∃ mac, (SetupVF fakeManager (fakeLib quote) conf podifName cid (kernelNS cns) k).1
      = .ok mac) ∧
    (ReleaseVF fakeManager (fakeLib quote)
      (SetupVF fakeManager (fakeLib quote) conf podifName cid (kernelNS cns) k).2.1
      podifName cid (kernelNS cns)
      (SetupVF fakeManager (fakeLib quote) conf podifName cid (kernelNS cns) k).2.2).1 = none ∧
    ∃ d', (ReleaseVF fakeManager (fakeLib quote)
        (SetupVF fakeManager (fakeLib quote) conf podifName cid (kernelNS cns) k).2.1
        podifName cid (kernelNS cns)
        (SetupVF fakeManager (fakeLib quote) conf podifName cid
          (kernelNS cns) k).2.2).2.dev? d.Index = some d' ∧
      d'.Name = conf.OrigVfState.HostIFName ∧
      d'.HardwareAddr = d.HardwareAddr ∧
      d'.Ns = k.cur := by
  rcases SetupVF_fake quote conf podifName cid cns k d hidx hdev hmac with
    h | ⟨hres, hcont, hmac1, hhost, heff, hcur, ⟨dv, hdv, hdns, -, hdhw⟩, hpod, hown⟩
  · exfalso
    apply h
    intro e he
    exact hok e (ReleaseVF_fake_log quote _ podifName cid cns _ e he)
  · have hparse : (SetupVF fakeManager (fakeLib quote) conf podifName cid
        (kernelNS cns) k).2.1.MAC ≠ "" →
        net.ParseMAC (SetupVF fakeManager (fakeLib quote) conf podifName cid
          (kernelNS cns) k).2.1.OrigVfState.EffectiveMAC = some d.HardwareAddr := by
      intro hne
      rw [hmac1] at hne
      rw [heff hne]
      exact haddr hne
    rcases ReleaseVF_fake quote _ podifName cid cns _ d.Index dv d.HardwareAddr hdv hdns hcont
        hpod hown hparse with h | ⟨hr, dv', hdv', hname, hns, hhw⟩
    · exact absurd hok h
    · refine ⟨hres, hr, dv', hdv', ?_, ?_, ?_⟩
      · rw [hname, hhost]
      · rw [hhw, hmac1]
        split
        · exact hdhw ‹_›
        · rfl
      · rw [hns, hcur]

/-- An instance of C1 as amended: the scenario of the specification on the
fake kernel with the device `eth0`, container namespace 1. -/
theorem C1_SetupVF_ReleaseVF_round_trip_witness :
    (roundTrip exConf exKernel).2.2.allOk ∧
    ((∃ mac, (SetupVF fakeManager (fakeLib quotePlain) exConf "net1" "cid" (kernelNS 1)
        exKernel).1 = .ok mac) ∧
      (ReleaseVF fakeManager (fakeLib quotePlain)
        (SetupVF fakeManager (fakeLib quotePlain) exConf "net1" "cid" (kernelNS 1) exKernel).2.1
        "net1" "cid" (kernelNS 1)
        (SetupVF fakeManager (fakeLib quotePlain) exConf "net1" "cid"
          (kernelNS 1) exKernel).2.2).1 = none ∧
      ∃ d', (ReleaseVF fakeManager (fakeLib quotePlain)
          (SetupVF fakeManager (fakeLib quotePlain) exConf "net1" "cid"
            (kernelNS 1) exKernel).2.1
          "net1" "cid" (kernelNS 1)
          (SetupVF fakeManager (fakeLib quotePlain) exConf "net1" "cid"
            (kernelNS 1) exKernel).2.2).2.dev? 7 = some d' ∧
        d'.Name = "eth0" ∧ d'.HardwareAddr = [2, 0, 0, 0, 0, 1] ∧ d'.Ns = 0) :=
  ⟨by decide,
    C1_SetupVF_ReleaseVF_round_trip quotePlain exConf "net1" "cid" 1 exKernel exDev
      (by decide) rfl (Or.inr rfl)
      (fun _ => ParseMAC_String exDev.HardwareAddr (by decide) (by decide)) (by decide)⟩

/-- C1 as stated fails, on the fake kernel with the device `eth0` in the host
namespace 0 and the container namespace 1.  With a requested MAC that does not
parse, `SetupVF` stops after the rename to the temporary name and `ReleaseVF`
stops at its length check: every recorded call succeeded and the device is left
under the name `temp_7`.  With the requested MAC of the scenario and a device
whose hardware address is empty, `SetupVF` succeeds and `ReleaseVF` cannot
parse the saved address: every recorded call succeeded and the device is left
in namespace 1 with the requested address. -/
theorem C1_SetupVF_ReleaseVF_round_trip_counterexample :
    (exKernel.byName badMacConf.OrigVfState.HostIFName = some exDev ∧
      (roundTrip badMacConf exKernel).2.2.allOk ∧
      (roundTrip badMacConf exKernel).2.2.dev? 7
        = some ((exDev.withUp false).withName "temp_7")) ∧
    (exKernelNoAddr.byName exConf.OrigVfState.HostIFName = some exDevNoAddr ∧
      (roundTrip exConf exKernelNoAddr).1 = .ok "00:11:22:33:44:55" ∧
      (roundTrip exConf exKernelNoAddr).2.2.allOk ∧
      (roundTrip exConf exKernelNoAddr).2.2.dev? 7
        = some ((exDevNoAddr.withAddr [0, 17, 34, 51, 68, 85]).withNs 1)) := by
  refine ⟨⟨rfl, by decide, rfl⟩, ⟨rfl, rfl, by decide, rfl⟩⟩

/-- The three shapes of the record of a run of `AddToBridge` against the test
double: the run stops with an error at or before the bridge attach of the
representor; or it stops with an error later in the representor sub-operation
and ends with the detach of the representor; or both sub-operations succeed
and the record is the full record. -/
theorem AddToBridge_mock_shape (p : Program) (conf : NetConf) :
    ((AddToBridge (mockManager p) conf []).1.isSome = true ∧
      ∃ bridge pf rname rep,
        (AddToBridge (mockManager p) conf []).2.2
          <+: attachRecord conf bridge pf rname ++ [Call.LinkSetMaster rep bridge]) ∨
    ((AddToBridge (mockManager p) conf []).1.isSome = true ∧
      ∃ bridge pf rname rep n, 8 ≤ n ∧
        (AddToBridge (mockManager p) conf []).2.2
          = (subRecord conf bridge pf rname rep).take n ++ [Call.LinkSetNoMaster rep]) ∨
    (∃ bridge pf rname rep, p.bothSucceed conf bridge pf rname rep ∧
      (AddToBridge (mockManager p) conf []).2.2 = fullRecord conf bridge pf rname rep ∧
      (AddToBridge (mockManager p) conf []).2.1.Representor = rname) := by
  unfold AddToBridge addPFToBridge addRepresentorToBridge addRepresentorToBridge.body
    addRepresentorToBridge.setUp
  simp only [mockManager, mockNetlink, mockSriov, Program.record, List.nil_append,
    List.cons_append]
  cases hb : p.link [] conf.Bridge with
  | error e =>
    simp only [hb, List.cons_append, List.nil_append]
    refine Or.inl ⟨by simp, ⟨0, "", [], []⟩, ⟨0, "", [], []⟩, "", ⟨0, "", [], []⟩, ?_⟩
    simp [attachRecord]
  | ok bridge =>
    simp only [hb, List.cons_append, List.nil_append]
    cases hpf : p.link [Call.LinkByName conf.Bridge] conf.Master with
    | error e =>
      simp only [hpf, List.cons_append, List.nil_append]
      refine Or.inl ⟨by simp, bridge, ⟨0, "", [], []⟩, "", ⟨0, "", [], []⟩, ?_⟩
      simp [attachRecord]
    | ok pf =>
      simp only [hpf, List.cons_append, List.nil_append]
      cases h3 : p.err [Call.LinkByName conf.Bridge, Call.LinkByName conf.Master]
          (Call.LinkSetMaster pf bridge) with
      | some e =>
        simp only [h3, List.cons_append, List.nil_append]
        refine Or.inl ⟨by simp, bridge, pf, "", ⟨0, "", [], []⟩, ?_⟩
        simp [attachRecord]
      | none =>
        simp only [h3, List.cons_append, List.nil_append]
        cases h4 : p.err [Call.LinkByName conf.Bridge, Call.LinkByName conf.Master,
            Call.LinkSetMaster pf bridge] (Call.LinkSetUp pf) with
        | some e =>
          simp only [h4, List.cons_append, List.nil_append]
          refine Or.inl ⟨by simp, bridge, pf, "", ⟨0, "", [], []⟩, ?_⟩
          simp [attachRecord]
        | none =>
          simp only [h4, List.cons_append, List.nil_append]
          rcases h5 : p.rep [Call.LinkByName conf.Bridge, Call.LinkByName conf.Master,
              Call.LinkSetMaster pf bridge, Call.LinkSetUp pf] conf.Master conf.VFID
            with ⟨rname, rerr⟩
          cases rerr with
          | some e =>
            simp only [h5, List.cons_append, List.nil_append]
            refine Or.inl ⟨by simp, bridge, pf, "", ⟨0, "", [], []⟩, ?_⟩
            simp [attachRecord]
          | none =>
            simp only [h5, List.cons_append, List.nil_append]
            cases h6 : p.link [Call.LinkByName conf.Bridge, Call.LinkByName conf.Master,
                Call.LinkSetMaster pf bridge, Call.LinkSetUp pf,
                Call.GetVfRepresentor conf.Master conf.VFID] rname with
            | error e =>
              simp only [h6, List.cons_append, List.nil_append]
              refine Or.inl ⟨by simp, bridge, pf, rname, ⟨0, "", [], []⟩, ?_⟩
              simp [attachRecord]
            | ok rep =>
              simp only [h6, List.cons_append, List.nil_append]
              cases h7 : p.err (attachRecord conf bridge pf rname)
                  (Call.LinkSetMaster rep bridge) with
              | some e =>
                simp only [attachRecord] at h7
                simp only [h7, List.cons_append, List.nil_append]
                refine Or.inl ⟨by simp, bridge, pf, rname, rep, ?_⟩
                simp [attachRecord]
              | none =>
                simp only [attachRecord] at h7
                simp only [h7, List.cons_append, List.nil_append]
                have hreach : p.reachesRepAttach conf bridge pf rname rep := by
                  simp only [Program.reachesRepAttach, attachRecord, List.take_succ_cons,
                    List.take_zero]
                  exact ⟨hb, hpf, h3, h4, h5, h6⟩
                by_cases hv : conf.Vlan = 0
                · simp only [hv, ne_eq, not_true_eq_false, ite_false]
                  cases h8 : p.err [Call.LinkByName conf.Bridge, Call.LinkByName conf.Master,
                      Call.LinkSetMaster pf bridge, Call.LinkSetUp pf,
                      Call.GetVfRepresentor conf.Master conf.VFID, Call.LinkByName rname,
                      Call.LinkSetMaster rep bridge] (Call.LinkSetUp rep) with
                  | some e =>
                    simp only [h8, List.cons_append, List.nil_append]
                    refine Or.inr (Or.inl ⟨by simp, bridge, pf, rname, rep, 8, le_refl _, ?_⟩)
                    simp [subRecord, attachRecord, repLaterCalls, hv]
                  | none =>
                    simp only [h8, List.cons_append, List.nil_append]
                    refine Or.inr (Or.inr ⟨bridge, pf, rname, rep, ⟨hreach, ?_, ?_⟩, ?_, ?_⟩)
                    · simpa [attachRecord] using h7
                    · simpa [attachRecord, repLaterCalls, hv, Program.passes] using h8
                    · split <;> simp [fullRecord, attachRecord, repLaterCalls, hv]
                    · split <;> rfl
                · simp only [hv, ne_eq, not_false_eq_true, ite_true]
                  cases h8 : p.err [Call.LinkByName conf.Bridge, Call.LinkByName conf.Master,
                      Call.LinkSetMaster pf bridge, Call.LinkSetUp pf,
                      Call.GetVfRepresentor conf.Master conf.VFID, Call.LinkByName rname,
                      Call.LinkSetMaster rep bridge]
                      (Call.BridgeVlanAdd rep (conf.Vlan % 65536).toNat true true false true) with
                  | some e =>
                    simp only [h8, List.cons_append, List.nil_append]
                    refine Or.inr (Or.inl ⟨by simp, bridge, pf, rname, rep, 8, le_refl _, ?_⟩)
                    simp [subRecord, attachRecord, repLaterCalls, hv, vlanAddCall]
                  | none =>
                    simp only [h8, List.cons_append, List.nil_append]
                    cases h9 : p.err [Call.LinkByName conf.Bridge, Call.LinkByName conf.Master,
                        Call.LinkSetMaster pf bridge, Call.LinkSetUp pf,
                        Call.GetVfRepresentor conf.Master conf.VFID, Call.LinkByName rname,
                        Call.LinkSetMaster rep bridge,
                        Call.BridgeVlanAdd rep (conf.Vlan % 65536).toNat true true false true]
                        (Call.LinkSetUp rep) with
                    | some e =>
                      simp only [h9, List.cons_append, List.nil_append]
                      refine Or.inr (Or.inl ⟨by simp, bridge, pf, rname, rep, 9, by omega, ?_⟩)
                      simp [subRecord, attachRecord, repLaterCalls, hv, vlanAddCall]
                    | none =>
                      simp only [h9, List.cons_append, List.nil_append]
                      refine Or.inr (Or.inr ⟨bridge, pf, rname, rep, ⟨hreach, ?_, ?_⟩, ?_, ?_⟩)
                      · simpa [attachRecord] using h7
                      · simp only [attachRecord, repLaterCalls, hv, vlanAddCall, Program.passes,
                          List.cons_append, List.nil_append, ne_eq, not_false_eq_true, ite_true,
                          and_true]
                        exact ⟨h8, h9⟩
                      · split <;> simp [fullRecord, attachRecord, repLaterCalls, hv, vlanAddCall]
                      · split <;> rfl

/-- When the test double lets both sub-operations succeed, the record of
`AddToBridge` is the full record and the name of the representor is stored in
the configuration record. -/
theorem AddToBridge_mock_full (p : Program) (conf : NetConf) (bridge pf : Link)
    (rname : String) (rep : Link) (h : p.bothSucceed conf bridge pf rname rep) :
    (AddToBridge (mockManager p) conf []).2.2 = fullRecord conf bridge pf rname rep ∧
    (AddToBridge (mockManager p) conf []).2.1.Representor = rname := by
  obtain ⟨⟨h1, h2, h3, h4, h5, h6⟩, h7, h8⟩ := h
  simp only [attachRecord, List.take_succ_cons, List.take_zero] at h2 h3 h4 h5 h6 h7
  unfold AddToBridge addPFToBridge addRepresentorToBridge addRepresentorToBridge.body
    addRepresentorToBridge.setUp
  simp only [mockManager, mockNetlink, mockSriov, Program.record, List.nil_append,
    List.cons_append, h1, h2, h3, h4, h5, h6, h7]
  by_cases hv : conf.Vlan = 0
  · simp only [repLaterCalls, hv, attachRecord, Program.passes, List.cons_append,
      List.nil_append, ne_eq, not_true_eq_false, ite_false, and_true] at h8
    simp only [hv, ne_eq, not_true_eq_false, ite_false, h8, List.cons_append, List.nil_append]
    constructor
    · split <;> simp [fullRecord, attachRecord, repLaterCalls, hv]
    · split <;> rfl
  · simp only [repLaterCalls, hv, attachRecord, Program.passes, List.cons_append,
      List.nil_append, ne_eq, not_false_eq_true, ite_true, and_true, vlanAddCall] at h8
    simp only [hv, ne_eq, not_false_eq_true, ite_true, h8.1, h8.2, List.cons_append,
      List.nil_append]
    constructor
    · split <;> simp [fullRecord, attachRecord, repLaterCalls, hv, vlanAddCall]
    · split <;> rfl

/-- C11: against the test double, for every run of `AddToBridge`.
Order: the record is a beginning of the full record (lookup of the bridge,
lookup of the PF, bridge attach of the PF, set-up of the PF, resolution and
lookup of the representor, bridge attach of the representor, VLAN membership
when `conf.Vlan` is non-zero, set-up of the representor, set-up of the bridge),
or such a beginning without the set-up of the bridge, followed by the detach of
the representor; so the attach and set-up of the PF precede the lookup and the
attach of the representor, and a VLAN membership call precedes the set-up of
the representor.  Bridge set-up: the record is the whole full record, which
ends with the set-up of the bridge, exactly when both sub-operations
succeeded.  Full success: when `AddToBridge` returns no error, both
sub-operations succeeded, `conf.Representor` is the name the representor
resolved to, and the record holds the attach of the PF and the attach of the
representor to the link found under `conf.Bridge`. -/
theorem C11_AddToBridge_call_order (p : Program) (conf : NetConf) :
    (∃ bridge pf rname rep,
      (AddToBridge (mockManager p) conf []).2.2 <+: fullRecord conf bridge pf rname rep ∨
      ∃ n, 8 ≤ n ∧
        (AddToBridge (mockManager p) conf []).2.2
          = (subRecord conf bridge pf rname rep).take n ++ [Call.LinkSetNoMaster rep]) ∧
    (∀ bridge pf rname rep,
      (AddToBridge (mockManager p) conf []).2.2 = fullRecord conf bridge pf rname rep ↔
        p.bothSucceed conf bridge pf rname rep) ∧
    ((AddToBridge (mockManager p) conf []).1 = none →
      ∃ bridge pf rname rep, p.bothSucceed conf bridge pf rname rep ∧
        (AddToBridge (mockManager p) conf []).2.1.Representor = rname ∧
        (AddToBridge (mockManager p) conf []).2.2 = fullRecord conf bridge pf rname rep ∧
        Call.LinkSetMaster pf bridge ∈ (AddToBridge (mockManager p) conf []).2.2 ∧
        Call.LinkSetMaster rep bridge ∈ (AddToBridge (mockManager p) conf []).2.2) := by
  refine ⟨?_, ?_, ?_⟩
  · rcases AddToBridge_mock_shape p conf with
      ⟨-, b, f, r, v, hpre⟩ | ⟨-, b, f, r, v, n, hn, hL⟩ | ⟨b, f, r, v, -, hL, -⟩
    · refine ⟨b, f, r, v, Or.inl (hpre.trans ?_)⟩
      unfold fullRecord
      exact (List.prefix_append _ _).trans (List.prefix_append _ _)
    · exact ⟨b, f, r, v, Or.inr ⟨n, hn, hL⟩⟩
    · exact ⟨b, f, r, v, Or.inl (hL ▸ List.prefix_refl _)⟩
  · intro bridge pf rname rep
    constructor
    · intro hfull
      rcases AddToBridge_mock_shape p conf with
        ⟨-, b, f, r, v, hpre⟩ | ⟨-, b, f, r, v, n, hn, hL⟩ | ⟨b, f, r, v, hboth, hL, -⟩
      · exfalso
        have hlen := hpre.length_le
        rw [hfull] at hlen
        simp [fullRecord, attachRecord] at hlen
      · exfalso
        have hlast := congrArg List.getLast? (hfull.symm.trans hL)
        unfold fullRecord at hlast
        rw [List.getLast?_concat, List.getLast?_concat] at hlast
        simp at hlast
      · have heq := hfull.symm.trans hL
        by_cases hv : conf.Vlan = 0
        · simp only [fullRecord, attachRecord, repLaterCalls, hv, ne_eq, not_true_eq_false,
            ite_false, List.cons_append, List.nil_append, List.cons.injEq, Call.LinkSetMaster.injEq,
            Call.LinkByName.injEq, Call.LinkSetUp.injEq, true_and, and_true] at heq
          obtain ⟨⟨rfl, rfl⟩, -, rfl, ⟨rfl, -⟩, -⟩ := heq
          exact hboth
        · simp only [fullRecord, attachRecord, repLaterCalls, hv, ne_eq, not_false_eq_true,
            ite_true, List.cons_append, List.nil_append, List.cons.injEq, Call.LinkSetMaster.injEq,
            Call.LinkByName.injEq, Call.LinkSetUp.injEq, true_and, and_true] at heq
          obtain ⟨⟨rfl, rfl⟩, -, rfl, ⟨rfl, -⟩, -⟩ := heq
          exact hboth
    · intro hboth
      exact (AddToBridge_mock_full p conf bridge pf rname rep hboth).1
  · intro hres
    rcases AddToBridge_mock_shape p conf with
      ⟨hsome, -⟩ | ⟨hsome, -⟩ | ⟨b, f, r, v, hboth, hL, hrep⟩
    · rw [hres] at hsome
      exact absurd hsome (by simp)
    · rw [hres] at hsome
      exact absurd hsome (by simp)
    · refine ⟨b, f, r, v, hboth, hrep, hL, ?_, ?_⟩
      · rw [hL]
        simp [fullRecord, attachRecord]
      · rw [hL]
        simp [fullRecord, attachRecord]

/-- An instance of C11: the scenario of the specification against the
programme in which every call succeeds.  Both sub-operations succeed, the
record is the full record (the PF `pf0` and the representor `pf0vf3` are
attached to `br-sriov`, `br-sriov` is set up last, no VLAN membership call is
made) and no error is returned. -/
theorem C11_AddToBridge_call_order_witness :
    okProgram.bothSucceed exConf (exLink "br-sriov") (exLink "pf0") "pf0vf3" (exLink "pf0vf3") ∧
    (AddToBridge (mockManager okProgram) exConf []).2.2
      = fullRecord exConf (exLink "br-sriov") (exLink "pf0") "pf0vf3" (exLink "pf0vf3") ∧
    fullRecord exConf (exLink "br-sriov") (exLink "pf0") "pf0vf3" (exLink "pf0vf3")
      = [.LinkByName "br-sriov", .LinkByName "pf0",
          .LinkSetMaster (exLink "pf0") (exLink "br-sriov"), .LinkSetUp (exLink "pf0"),
          .GetVfRepresentor "pf0" 3, .LinkByName "pf0vf3",
          .LinkSetMaster (exLink "pf0vf3") (exLink "br-sriov"), .LinkSetUp (exLink "pf0vf3"),
          .LinkSetUp (exLink "br-sriov")] ∧
    (AddToBridge (mockManager okProgram) exConf []).1 = none :=
  ⟨⟨⟨rfl, rfl, rfl, rfl, rfl, rfl⟩, rfl, ⟨rfl, trivial⟩⟩,
    ((C11_AddToBridge_call_order okProgram exConf).2.1 (exLink "br-sriov") (exLink "pf0")
      "pf0vf3" (exLink "pf0vf3")).2 ⟨⟨rfl, rfl, rfl, rfl, rfl, rfl⟩, rfl, ⟨rfl, trivial⟩⟩,
    by decide, rfl⟩

end AcceleratedBridge
